import Mathlib

/-!
# JUCE win32 OpenGL component and audio plugin host window

A shallow embedding of `modules/juce_opengl/native/juce_win32_OpenGLComponent.cpp`
(pixel-format negotiation and context lifecycle) and of the menu and command
handling of `extras/audio plugin host/src/host/MainHostWindow.cpp`.

* Native handles (`HDC`, `HGLRC`, `HWND`) and the `ComponentPeer*` held by the
  `ScopedPointer` are natural numbers, `0` being the null handle / `nullptr`.
* The operating system and the graphics driver are a record `Win32 W` of functions
  over an arbitrary world state `W`; every theorem quantifies over all of them.
* Every native call that the code makes is appended, with its arguments and its
  result, to a call log, so that statements about which calls are made, how often
  and in which order are statements about that log.
* `jassert` / `jassertfalse` have no effect on control flow and are left out.
-/

namespace Juce

/-! ## Constants -/

/-- Line 36. -/
def WGL_NUMBER_PIXEL_FORMATS_ARB : Int := 0x2000
/-- Line 37. -/
def WGL_DRAW_TO_WINDOW_ARB : Int := 0x2001
/-- Line 38. -/
def WGL_ACCELERATION_ARB : Int := 0x2003
/-- Line 40. -/
def WGL_SUPPORT_OPENGL_ARB : Int := 0x2010
/-- Line 41. -/
def WGL_PIXEL_TYPE_ARB : Int := 0x2013
/-- Line 42. -/
def WGL_DOUBLE_BUFFER_ARB : Int := 0x2011
/-- Line 43. -/
def WGL_COLOR_BITS_ARB : Int := 0x2014
/-- Line 44. -/
def WGL_RED_BITS_ARB : Int := 0x2015
/-- Line 45. -/
def WGL_GREEN_BITS_ARB : Int := 0x2017
/-- Line 46. -/
def WGL_BLUE_BITS_ARB : Int := 0x2019
/-- Line 47. -/
def WGL_ALPHA_BITS_ARB : Int := 0x201B
/-- Line 48. -/
def WGL_DEPTH_BITS_ARB : Int := 0x2022
/-- Line 49. -/
def WGL_STENCIL_BITS_ARB : Int := 0x2023
/-- Line 50. -/
def WGL_FULL_ACCELERATION_ARB : Int := 0x2027
/-- Line 51. -/
def WGL_ACCUM_RED_BITS_ARB : Int := 0x201E
/-- Line 52. -/
def WGL_ACCUM_GREEN_BITS_ARB : Int := 0x201F
/-- Line 53. -/
def WGL_ACCUM_BLUE_BITS_ARB : Int := 0x2020
/-- Line 54. -/
def WGL_ACCUM_ALPHA_BITS_ARB : Int := 0x2021
/-- Line 56. -/
def WGL_SAMPLE_BUFFERS_ARB : Int := 0x2041
/-- Line 57. -/
def WGL_SAMPLES_ARB : Int := 0x2042
/-- Line 58. -/
def WGL_TYPE_RGBA_ARB : Int := 0x202B

/-- OpenGL header constant `GL_TRUE`. -/
def GL_TRUE : Int := 1

/-- Windows header constant `PFD_DOUBLEBUFFER`. -/
def PFD_DOUBLEBUFFER : Nat := 0x1
/-- Windows header constant `PFD_DRAW_TO_WINDOW`. -/
def PFD_DRAW_TO_WINDOW : Nat := 0x4
/-- Windows header constant `PFD_SUPPORT_OPENGL`. -/
def PFD_SUPPORT_OPENGL : Nat := 0x20
/-- Windows header constant `PFD_GENERIC_FORMAT` (set on formats that are not
hardware accelerated). -/
def PFD_GENERIC_FORMAT : Nat := 0x40
/-- Windows header constant `PFD_TYPE_RGBA`. -/
def PFD_TYPE_RGBA : Int := 0
/-- Windows header constant `PFD_MAIN_PLANE`. -/
def PFD_MAIN_PLANE : Int := 0

/-! ## Data model -/

/-- A device-context handle; `0` is the null handle. -/
abbrev HDC := Nat
/-- A render-context handle; `0` is the null handle. -/
abbrev HGLRC := Nat
/-- A window handle. -/
abbrev HWND := Nat
/-- A `ComponentPeer*`; `0` is `nullptr`. -/
abbrev Peer := Nat

/-- Modelled from the spec: the class `OpenGLPixelFormat` is declared outside the
files at hand. Its fields are the ones the source reads and writes (colour, alpha,
depth, stencil and accumulation bit depths and the multisample count). The bit depths
are C `int`s; `fullSceneAntiAliasingNumSamples` is an 8-bit unsigned value (line 409
stores into it through a `uint8` cast). -/
structure OpenGLPixelFormat where
  redBits : Int
  greenBits : Int
  blueBits : Int
  alphaBits : Int
  depthBufferBits : Int
  stencilBufferBits : Int
  accumulationBufferRedBits : Int
  accumulationBufferGreenBits : Int
  accumulationBufferBlueBits : Int
  accumulationBufferAlphaBits : Int
  fullSceneAntiAliasingNumSamples : Int
  deriving DecidableEq, Repr

/-- Modelled from the spec: `OpenGLPixelFormat::operator==` is defined outside the
files at hand; the spec describes it as structural equality of descriptors, so
it compares every field. -/
def OpenGLPixelFormat.eq (a b : OpenGLPixelFormat) : Bool :=
  a.redBits == b.redBits
    && a.greenBits == b.greenBits
    && a.blueBits == b.blueBits
    && a.alphaBits == b.alphaBits
    && a.depthBufferBits == b.depthBufferBits
    && a.stencilBufferBits == b.stencilBufferBits
    && a.accumulationBufferRedBits == b.accumulationBufferRedBits
    && a.accumulationBufferGreenBits == b.accumulationBufferGreenBits
    && a.accumulationBufferBlueBits == b.accumulationBufferBlueBits
    && a.accumulationBufferAlphaBits == b.accumulationBufferAlphaBits
    && a.fullSceneAntiAliasingNumSamples == b.fullSceneAntiAliasingNumSamples

/-- The Windows `PIXELFORMATDESCRIPTOR`, restricted to the members the source
touches. The default value of every member is `0`, which is the `= { 0 }`
initialiser of lines 79 and 157. The `BYTE` members hold values in `0..255`. -/
structure PIXELFORMATDESCRIPTOR where
  nSize : Nat := 0
  nVersion : Nat := 0
  dwFlags : Nat := 0
  iPixelType : Int := 0
  iLayerType : Int := 0
  cColorBits : Int := 0
  cRedBits : Int := 0
  cGreenBits : Int := 0
  cBlueBits : Int := 0
  cAlphaBits : Int := 0
  cDepthBits : Int := 0
  cStencilBits : Int := 0
  cAccumBits : Int := 0
  cAccumRedBits : Int := 0
  cAccumGreenBits : Int := 0
  cAccumBlueBits : Int := 0
  cAccumAlphaBits : Int := 0
  deriving DecidableEq, Repr

/-- The value of `sizeof (PIXELFORMATDESCRIPTOR)`. -/
def sizeofPFD : Nat := 40

/-- The C cast `(BYTE) x` / `(uint8) x` of an `int`. -/
def toBYTE (x : Int) : Int := x % 256

/-- One native call, with its arguments and what it returned. -/
inductive NativeCall where
  | wglMakeCurrent (dc : HDC) (rc : HGLRC) (ok : Bool)
  | wglCreateContext (dc : HDC) (result : HGLRC)
  | wglDeleteContext (rc : HGLRC)
  | wglShareLists (a b : HGLRC)
  | ChoosePixelFormat (dc : HDC) (pfd : PIXELFORMATDESCRIPTOR) (result : Int)
  | wglChoosePixelFormatARB (dc : HDC) (attributes : List Int) (ok : Bool)
      (piFormats : Option Int)
  | SetPixelFormat (dc : HDC) (format : Int) (pfd : PIXELFORMATDESCRIPTOR) (ok : Bool)
  | DescribePixelFormat (dc : HDC) (index : Int) (nBytes : Nat) (result : Int)
      (pfd : PIXELFORMATDESCRIPTOR)
  | wglGetPixelFormatAttribivARB (dc : HDC) (index : Int) (attributes : List Int)
      (ok : Bool) (values : List Int)
  | createNonRepaintingEmbeddedWindowsPeer (component : Nat) (result : Peer)
  | deletePeer (peer : Peer)
  | setVisible (peer : Peer) (shouldBeVisible : Bool)
  | GetDC (hwnd : HWND) (result : HDC)
  | ReleaseDC (hwnd : HWND) (dc : HDC)
  deriving DecidableEq, Repr

/-- The native environment: the win32 / WGL entry points and the framework
functions that the file calls but does not define, as functions over a world
state `W`. Pure queries return a value; calls with an effect also return the
next world.

* `wglChoosePixelFormatARB` is called with `nMaxFormats = 1`; it returns its
  `BOOL` and what it stored into `piFormats[0]`, if it stored anything.
* `wglGetPixelFormatAttribivARB` returns its `BOOL` and the values it stored
  into `piValues`.
* `DescribePixelFormat` returns its `int` and the contents of `*ppfd` after the
  call.
* `createNonRepaintingEmbeddedWindowsPeer` returns a `ComponentPeer*`.
* `isExtensionSupported` is `OpenGLHelpers::isExtensionSupported`;
  `wglGetProcAddress name` tells whether the address returned is non-null. -/
structure Win32 (W : Type) where
  isExtensionSupported : String → W → Bool
  wglGetProcAddress : String → W → Bool
  wglGetCurrentContext : W → HGLRC
  getNativeHandle : Peer → W → HWND
  wglMakeCurrent : HDC → HGLRC → W → Bool × W
  wglCreateContext : HDC → W → HGLRC × W
  wglDeleteContext : HGLRC → W → W
  wglShareLists : HGLRC → HGLRC → W → W
  ChoosePixelFormat : HDC → PIXELFORMATDESCRIPTOR → W → Int × W
  wglChoosePixelFormatARB : HDC → List Int → W → (Bool × Option Int) × W
  SetPixelFormat : HDC → Int → PIXELFORMATDESCRIPTOR → W → Bool × W
  DescribePixelFormat : HDC → Int → Nat → W → (Int × PIXELFORMATDESCRIPTOR) × W
  wglGetPixelFormatAttribivARB : HDC → Int → List Int → W → (Bool × List Int) × W
  createNonRepaintingEmbeddedWindowsPeer : Nat → W → Peer × W
  deletePeer : Peer → W → W
  setVisible : Peer → Bool → W → W
  GetDC : HWND → W → HDC × W
  ReleaseDC : HWND → HDC → W → W

/-- The world together with the log of native calls made so far. -/
structure Sys (W : Type) where
  world : W
  log : List NativeCall

variable {W : Type}

/-! ### Logged native calls -/

def Sys.wglMakeCurrent (api : Win32 W) (dc : HDC) (rc : HGLRC) (s : Sys W) : Bool × Sys W :=
  let r := api.wglMakeCurrent dc rc s.world
  (r.1, ⟨r.2, s.log ++ [NativeCall.wglMakeCurrent dc rc r.1]⟩)

def Sys.wglCreateContext (api : Win32 W) (dc : HDC) (s : Sys W) : HGLRC × Sys W :=
  let r := api.wglCreateContext dc s.world
  (r.1, ⟨r.2, s.log ++ [NativeCall.wglCreateContext dc r.1]⟩)

def Sys.wglDeleteContext (api : Win32 W) (rc : HGLRC) (s : Sys W) : Sys W :=
  ⟨api.wglDeleteContext rc s.world, s.log ++ [NativeCall.wglDeleteContext rc]⟩

def Sys.wglShareLists (api : Win32 W) (a b : HGLRC) (s : Sys W) : Sys W :=
  ⟨api.wglShareLists a b s.world, s.log ++ [NativeCall.wglShareLists a b]⟩

def Sys.ChoosePixelFormat (api : Win32 W) (dc : HDC) (pfd : PIXELFORMATDESCRIPTOR)
    (s : Sys W) : Int × Sys W :=
  let r := api.ChoosePixelFormat dc pfd s.world
  (r.1, ⟨r.2, s.log ++ [NativeCall.ChoosePixelFormat dc pfd r.1]⟩)

def Sys.wglChoosePixelFormatARB (api : Win32 W) (dc : HDC) (attributes : List Int)
    (s : Sys W) : (Bool × Option Int) × Sys W :=
  let r := api.wglChoosePixelFormatARB dc attributes s.world
  (r.1, ⟨r.2, s.log ++ [NativeCall.wglChoosePixelFormatARB dc attributes r.1.1 r.1.2]⟩)

def Sys.SetPixelFormat (api : Win32 W) (dc : HDC) (format : Int)
    (pfd : PIXELFORMATDESCRIPTOR) (s : Sys W) : Bool × Sys W :=
  let r := api.SetPixelFormat dc format pfd s.world
  (r.1, ⟨r.2, s.log ++ [NativeCall.SetPixelFormat dc format pfd r.1]⟩)

def Sys.DescribePixelFormat (api : Win32 W) (dc : HDC) (index : Int) (nBytes : Nat)
    (s : Sys W) : (Int × PIXELFORMATDESCRIPTOR) × Sys W :=
  let r := api.DescribePixelFormat dc index nBytes s.world
  (r.1, ⟨r.2, s.log ++ [NativeCall.DescribePixelFormat dc index nBytes r.1.1 r.1.2]⟩)

def Sys.wglGetPixelFormatAttribivARB (api : Win32 W) (dc : HDC) (index : Int)
    (attributes : List Int) (s : Sys W) : (Bool × List Int) × Sys W :=
  let r := api.wglGetPixelFormatAttribivARB dc index attributes s.world
  (r.1, ⟨r.2, s.log ++ [NativeCall.wglGetPixelFormatAttribivARB dc index attributes r.1.1 r.1.2]⟩)

def Sys.createNonRepaintingEmbeddedWindowsPeer (api : Win32 W) (component : Nat)
    (s : Sys W) : Peer × Sys W :=
  let r := api.createNonRepaintingEmbeddedWindowsPeer component s.world
  (r.1, ⟨r.2, s.log ++ [NativeCall.createNonRepaintingEmbeddedWindowsPeer component r.1]⟩)

def Sys.deletePeer (api : Win32 W) (peer : Peer) (s : Sys W) : Sys W :=
  ⟨api.deletePeer peer s.world, s.log ++ [NativeCall.deletePeer peer]⟩

def Sys.setVisible (api : Win32 W) (peer : Peer) (b : Bool) (s : Sys W) : Sys W :=
  ⟨api.setVisible peer b s.world, s.log ++ [NativeCall.setVisible peer b]⟩

def Sys.GetDC (api : Win32 W) (hwnd : HWND) (s : Sys W) : HDC × Sys W :=
  let r := api.GetDC hwnd s.world
  (r.1, ⟨r.2, s.log ++ [NativeCall.GetDC hwnd r.1]⟩)

def Sys.ReleaseDC (api : Win32 W) (hwnd : HWND) (dc : HDC) (s : Sys W) : Sys W :=
  ⟨api.ReleaseDC hwnd dc s.world, s.log ++ [NativeCall.ReleaseDC hwnd dc]⟩

/-! ## `WindowedGLContext` -/

/-- The data members of `WindowedGLContext` (lines 344-349). `component` is the
identity of the owning component. -/
structure WindowedGLContext where
  renderContext : HGLRC
  nativeWindow : Peer
  component : Nat
  dc : HDC
  deriving DecidableEq, Repr

/-- A C array `int a[capacity]` that is filled through a running index `n`
(`a[n++] = v`): `stored` is `a[0 .. n-1]`, so `n = stored.length`. A store at an
index outside the array is recorded in `overrun` instead of being performed. -/
structure IntArray where
  capacity : Nat
  stored : List Int
  overrun : Bool

/-- The statement `a[n++] = v`. -/
def IntArray.store (a : IntArray) (v : Int) : IntArray :=
  if a.stored.length < a.capacity then { a with stored := a.stored ++ [v] }
  else { a with overrun := true }

/-- Lines 157-175 of `setPixelFormat`: the legacy descriptor built from the
request. -/
def setPixelFormat.descriptor (pixelFormat : OpenGLPixelFormat) : PIXELFORMATDESCRIPTOR :=
  { nSize := sizeofPFD
    nVersion := 1
    dwFlags := PFD_SUPPORT_OPENGL ||| PFD_DRAW_TO_WINDOW ||| PFD_DOUBLEBUFFER
    iPixelType := PFD_TYPE_RGBA
    iLayerType := PFD_MAIN_PLANE
    cColorBits := toBYTE (pixelFormat.redBits + pixelFormat.greenBits + pixelFormat.blueBits)
    cRedBits := toBYTE pixelFormat.redBits
    cGreenBits := toBYTE pixelFormat.greenBits
    cBlueBits := toBYTE pixelFormat.blueBits
    cAlphaBits := toBYTE pixelFormat.alphaBits
    cDepthBits := toBYTE pixelFormat.depthBufferBits
    cStencilBits := toBYTE pixelFormat.stencilBufferBits
    cAccumBits := toBYTE (pixelFormat.accumulationBufferRedBits
                    + pixelFormat.accumulationBufferGreenBits
                    + pixelFormat.accumulationBufferBlueBits
                    + pixelFormat.accumulationBufferAlphaBits)
    cAccumRedBits := toBYTE pixelFormat.accumulationBufferRedBits
    cAccumGreenBits := toBYTE pixelFormat.accumulationBufferGreenBits
    cAccumBlueBits := toBYTE pixelFormat.accumulationBufferBlueBits
    cAccumAlphaBits := toBYTE pixelFormat.accumulationBufferAlphaBits }

/-- Lines 184-235 of `setPixelFormat`: the array `int attributes[64]` after the
last store. `multisample` is the value of
`OpenGLHelpers::isExtensionSupported ("WGL_ARB_multisample")` at line 226. -/
def setPixelFormat.attributes (multisample : Bool) (pixelFormat : OpenGLPixelFormat)
    (pfd : PIXELFORMATDESCRIPTOR) : IntArray :=
  let a : IntArray := ⟨64, [], false⟩
  let a := a.store WGL_DRAW_TO_WINDOW_ARB
  let a := a.store GL_TRUE
  let a := a.store WGL_SUPPORT_OPENGL_ARB
  let a := a.store GL_TRUE
  let a := a.store WGL_ACCELERATION_ARB
  let a := a.store WGL_FULL_ACCELERATION_ARB
  let a := a.store WGL_DOUBLE_BUFFER_ARB
  let a := a.store GL_TRUE
  let a := a.store WGL_PIXEL_TYPE_ARB
  let a := a.store WGL_TYPE_RGBA_ARB
  let a := a.store WGL_COLOR_BITS_ARB
  let a := a.store pfd.cColorBits
  let a := a.store WGL_RED_BITS_ARB
  let a := a.store pixelFormat.redBits
  let a := a.store WGL_GREEN_BITS_ARB
  let a := a.store pixelFormat.greenBits
  let a := a.store WGL_BLUE_BITS_ARB
  let a := a.store pixelFormat.blueBits
  let a := a.store WGL_ALPHA_BITS_ARB
  let a := a.store pixelFormat.alphaBits
  let a := a.store WGL_DEPTH_BITS_ARB
  let a := a.store pixelFormat.depthBufferBits
  let a :=
    if pixelFormat.stencilBufferBits > 0 then
      let a := a.store WGL_STENCIL_BITS_ARB
      a.store pixelFormat.stencilBufferBits
    else a
  let a := a.store WGL_ACCUM_RED_BITS_ARB
  let a := a.store pixelFormat.accumulationBufferRedBits
  let a := a.store WGL_ACCUM_GREEN_BITS_ARB
  let a := a.store pixelFormat.accumulationBufferGreenBits
  let a := a.store WGL_ACCUM_BLUE_BITS_ARB
  let a := a.store pixelFormat.accumulationBufferBlueBits
  let a := a.store WGL_ACCUM_ALPHA_BITS_ARB
  let a := a.store pixelFormat.accumulationBufferAlphaBits
  let a :=
    if multisample && decide (pixelFormat.fullSceneAntiAliasingNumSamples > 0) then
      let a := a.store WGL_SAMPLE_BUFFERS_ARB
      let a := a.store 1
      let a := a.store WGL_SAMPLES_ARB
      a.store pixelFormat.fullSceneAntiAliasingNumSamples
    else a
  a.store 0

/-- Lines 119-123. -/
def makeActive (api : Win32 W) (c : WindowedGLContext) (s : Sys W) : Bool × Sys W :=
  Sys.wglMakeCurrent api c.dc c.renderContext s

/-- Lines 130-133. -/
def isActive (api : Win32 W) (c : WindowedGLContext) (s : Sys W) : Bool :=
  api.wglGetCurrentContext s.world == c.renderContext

/-- Lines 125-128. -/
def makeInactive (api : Win32 W) (c : WindowedGLContext) (s : Sys W) : Bool × Sys W :=
  if !isActive api c s then (true, s) else Sys.wglMakeCurrent api 0 0 s

/-- `ScopedPointer<ComponentPeer>::operator=` applied to the member `nativeWindow`
(framework code): when the new pointer differs from the held one, the held
object is deleted (deleting `nullptr` does nothing). -/
def nativeWindow.assign (api : Win32 W) (c : WindowedGLContext) (newPeer : Peer)
    (s : Sys W) : WindowedGLContext × Sys W :=
  if c.nativeWindow != newPeer then
    ({ c with nativeWindow := newPeer },
      if c.nativeWindow != 0 then Sys.deletePeer api c.nativeWindow s else s)
  else (c, s)

/-- Lines 352-358. -/
def createNativeWindow (api : Win32 W) (c : WindowedGLContext) (s : Sys W) :
    WindowedGLContext × Sys W :=
  let r := Sys.createNonRepaintingEmbeddedWindowsPeer api c.component s
  let a := nativeWindow.assign api c r.1 r.2
  let s := Sys.setVisible api a.1.nativeWindow true a.2
  let d := Sys.GetDC api (api.getNativeHandle a.1.nativeWindow s.world) s
  ({ a.1 with dc := d.1 }, d.2)

/-- Lines 155-245 of `setPixelFormat`: activation, the descriptor, and the choice
of a format index through `wglChoosePixelFormatARB` or `ChoosePixelFormat`.
Returns the local variables `format` and `pfd`. -/
def setPixelFormat.chooseFormat (api : Win32 W) (pixelFormat : OpenGLPixelFormat)
    (c : WindowedGLContext) (s : Sys W) : Int × PIXELFORMATDESCRIPTOR × Sys W :=
  let s := (makeActive api c s).2
  let pfd := setPixelFormat.descriptor pixelFormat
  if api.isExtensionSupported "WGL_ARB_pixel_format" s.world
      && api.wglGetProcAddress "wglChoosePixelFormatARB" s.world then
    let attributes := setPixelFormat.attributes
      (api.isExtensionSupported "WGL_ARB_multisample" s.world) pixelFormat pfd
    let r := Sys.wglChoosePixelFormatARB api c.dc attributes.stored s
    (r.1.2.getD 0, pfd, r.2)
  else
    let r := Sys.ChoosePixelFormat api c.dc pfd s
    (r.1, pfd, r.2)

/-- Lines 247-269 of `setPixelFormat`: what is done with the chosen `format`. -/
def setPixelFormat.applyFormat (api : Win32 W) (c : WindowedGLContext) (format : Int)
    (pfd : PIXELFORMATDESCRIPTOR) (s : Sys W) : Bool × WindowedGLContext × Sys W :=
  if format != 0 then
    let s := (makeInactive api c s).2
    let s := Sys.ReleaseDC api (api.getNativeHandle c.nativeWindow s.world) c.dc s
    let a := nativeWindow.assign api c 0 s
    let n := createNativeWindow api a.1 a.2
    let c := n.1
    let r := Sys.SetPixelFormat api c.dc format pfd n.2
    if r.1 then
      let s := Sys.wglDeleteContext api c.renderContext r.2
      let h := Sys.wglCreateContext api c.dc s
      (h.1 != 0, { c with renderContext := h.1 }, h.2)
    else (false, c, r.2)
  else (false, c, s)

/-- Lines 153-270. -/
def setPixelFormat (api : Win32 W) (pixelFormat : OpenGLPixelFormat)
    (c : WindowedGLContext) (s : Sys W) : Bool × WindowedGLContext × Sys W :=
  let f := setPixelFormat.chooseFormat api pixelFormat c s
  setPixelFormat.applyFormat api c f.1 f.2.1 f.2.2

/-- Lines 367-387 of `fillInPixelFormatDetails`: the array `int attributes[32]`
after the last store. `multisample` is the value of
`OpenGLHelpers::isExtensionSupported ("WGL_ARB_multisample")` at line 386. -/
def fillInPixelFormatDetails.attributes (multisample : Bool) : IntArray :=
  let a : IntArray := ⟨32, [], false⟩
  let a := a.store WGL_DRAW_TO_WINDOW_ARB
  let a := a.store WGL_SUPPORT_OPENGL_ARB
  let a := a.store WGL_ACCELERATION_ARB
  let a := a.store WGL_DOUBLE_BUFFER_ARB
  let a := a.store WGL_PIXEL_TYPE_ARB
  let a := a.store WGL_RED_BITS_ARB
  let a := a.store WGL_GREEN_BITS_ARB
  let a := a.store WGL_BLUE_BITS_ARB
  let a := a.store WGL_ALPHA_BITS_ARB
  let a := a.store WGL_DEPTH_BITS_ARB
  let a := a.store WGL_STENCIL_BITS_ARB
  let a := a.store WGL_ACCUM_RED_BITS_ARB
  let a := a.store WGL_ACCUM_GREEN_BITS_ARB
  let a := a.store WGL_ACCUM_BLUE_BITS_ARB
  let a := a.store WGL_ACCUM_ALPHA_BITS_ARB
  if multisample then a.store WGL_SAMPLES_ARB else a

/-- Line 389, `int values[32] = { 0 }`, after the driver has stored `written`
into it for a query of `numAttributes` attributes: the driver fills at most the
first `numAttributes` entries, the others keep their initial `0`. -/
def fillInPixelFormatDetails.values (numAttributes : Nat) (written : List Int) : List Int :=
  written.take numAttributes ++ List.replicate (32 - (written.take numAttributes).length) 0

/-- Lines 360-445. `result` is the caller's object, which is returned unchanged
when nothing is stored into it. -/
def fillInPixelFormatDetails (api : Win32 W) (c : WindowedGLContext) (pixelFormatIndex : Int)
    (result : OpenGLPixelFormat) (s : Sys W) : Bool × OpenGLPixelFormat × Sys W :=
  if api.isExtensionSupported "WGL_ARB_pixel_format" s.world
      && api.wglGetProcAddress "wglGetPixelFormatAttribivARB" s.world then
    let attributes := fillInPixelFormatDetails.attributes
      (api.isExtensionSupported "WGL_ARB_multisample" s.world)
    let r := Sys.wglGetPixelFormatAttribivARB api c.dc pixelFormatIndex attributes.stored s
    let values := fillInPixelFormatDetails.values attributes.stored.length r.1.2
    if r.1.1 then
      let isValidFormat := values.getD 0 0 == GL_TRUE
      let isValidFormat := (values.getD 1 0 == GL_TRUE) && isValidFormat
      let isValidFormat := (values.getD 2 0 == WGL_FULL_ACCELERATION_ARB) && isValidFormat
      let isValidFormat := (values.getD 3 0 == GL_TRUE) && isValidFormat
      let isValidFormat := (values.getD 4 0 == WGL_TYPE_RGBA_ARB) && isValidFormat
      (isValidFormat,
        { redBits := values.getD 5 0
          greenBits := values.getD 6 0
          blueBits := values.getD 7 0
          alphaBits := values.getD 8 0
          depthBufferBits := values.getD 9 0
          stencilBufferBits := values.getD 10 0
          accumulationBufferRedBits := values.getD 11 0
          accumulationBufferGreenBits := values.getD 12 0
          accumulationBufferBlueBits := values.getD 13 0
          accumulationBufferAlphaBits := values.getD 14 0
          fullSceneAntiAliasingNumSamples := toBYTE (values.getD 15 0) },
        r.2)
    else (false, result, r.2)
  else
    let r := Sys.DescribePixelFormat api c.dc pixelFormatIndex sizeofPFD s
    let pfd := r.1.2
    if r.1.1 != 0 then
      (true,
        { redBits := pfd.cRedBits
          greenBits := pfd.cGreenBits
          blueBits := pfd.cBlueBits
          alphaBits := pfd.cAlphaBits
          depthBufferBits := pfd.cDepthBits
          stencilBufferBits := pfd.cStencilBits
          accumulationBufferRedBits := pfd.cAccumRedBits
          accumulationBufferGreenBits := pfd.cAccumGreenBits
          accumulationBufferBlueBits := pfd.cAccumBlueBits
          accumulationBufferAlphaBits := pfd.cAccumAlphaBits
          fullSceneAntiAliasingNumSamples := 0 },
        r.2)
    else (false, result, r.2)

/-- Lines 327-330 of `findAlternativeOpenGLPixelFormats`: the flag
`alreadyListed` after the loop over `j = results.size() - 1, ..., 0`. -/
def findAlternativeOpenGLPixelFormats.alreadyListed (pf : OpenGLPixelFormat)
    (results : List OpenGLPixelFormat) : Bool :=
  results.reverse.foldl (fun listed r => if pf.eq r then true else listed) false

/-- Lines 323-335 of `findAlternativeOpenGLPixelFormats`: the loop
`for (int i = 0; i < numTypes; ++i)`, with `remaining = numTypes - i` iterations
still to run. `pf` is the local object that every iteration reuses. -/
def findAlternativeOpenGLPixelFormats.loop (api : Win32 W) (c : WindowedGLContext) :
    Nat → Int → OpenGLPixelFormat → List OpenGLPixelFormat → Sys W →
      List OpenGLPixelFormat × Sys W
  | 0, _, _, results, s => (results, s)
  | remaining + 1, i, pf, results, s =>
    let f := fillInPixelFormatDetails api c (i + 1) pf s
    let results :=
      if f.1 then
        if findAlternativeOpenGLPixelFormats.alreadyListed f.2.1 results then results
        else results ++ [f.2.1]
      else results
    findAlternativeOpenGLPixelFormats.loop api c remaining (i + 1) f.2.1 results f.2.2

/-- Lines 305-319 of `findAlternativeOpenGLPixelFormats`: the local `numTypes`,
initialised to `0` and then set by the driver. -/
def findAlternativeOpenGLPixelFormats.numTypes (api : Win32 W) (c : WindowedGLContext)
    (s : Sys W) : Int × Sys W :=
  if api.isExtensionSupported "WGL_ARB_pixel_format" s.world
      && api.wglGetProcAddress "wglGetPixelFormatAttribivARB" s.world then
    let r := Sys.wglGetPixelFormatAttribivARB api c.dc 1 [WGL_NUMBER_PIXEL_FORMATS_ARB] s
    ((r.1.2.take 1).headD 0, r.2)
  else
    let r := Sys.DescribePixelFormat api c.dc 0 0 s
    (r.1.1, r.2)

/-- Lines 301-336. `results` is the caller's `OwnedArray`, as the list of the
objects it holds; `pf0` is the default-constructed `OpenGLPixelFormat` of line
321 (its constructor is framework code). -/
def findAlternativeOpenGLPixelFormats (api : Win32 W) (c : WindowedGLContext)
    (pf0 : OpenGLPixelFormat) (results : List OpenGLPixelFormat) (s : Sys W) :
    List OpenGLPixelFormat × Sys W :=
  let n := findAlternativeOpenGLPixelFormats.numTypes api c s
  findAlternativeOpenGLPixelFormats.loop api c n.1.toNat 0 pf0 results n.2

/-- Lines 67-99: the constructor. -/
def WindowedGLContext.construct (api : Win32 W) (component_ : Nat) (contextToShareWith : HGLRC)
    (pixelFormat : OpenGLPixelFormat) (s : Sys W) : WindowedGLContext × Sys W :=
  let c : WindowedGLContext := { renderContext := 0, nativeWindow := 0, component := component_, dc := 0 }
  let n := createNativeWindow api c s
  let c := n.1
  let pfd : PIXELFORMATDESCRIPTOR :=
    { nSize := sizeofPFD
      nVersion := 1
      dwFlags := PFD_DRAW_TO_WINDOW ||| PFD_SUPPORT_OPENGL ||| PFD_DOUBLEBUFFER
      iPixelType := PFD_TYPE_RGBA
      cColorBits := 24
      cDepthBits := 16 }
  let f := Sys.ChoosePixelFormat api c.dc pfd n.2
  let s := if f.1 != 0 then (Sys.SetPixelFormat api c.dc f.1 pfd f.2).2 else f.2
  let h := Sys.wglCreateContext api c.dc s
  let c := { c with renderContext := h.1 }
  let s := (makeActive api c h.2).2
  let p := setPixelFormat api pixelFormat c s
  let c := p.2.1
  let s :=
    if contextToShareWith != 0 && c.renderContext != 0 then
      Sys.wglShareLists api contextToShareWith c.renderContext p.2.2
    else p.2.2
  (c, s)

/-- Lines 108-117. -/
def deleteContext (api : Win32 W) (c : WindowedGLContext) (s : Sys W) :
    WindowedGLContext × Sys W :=
  let s := (makeInactive api c s).2
  if c.renderContext != 0 then
    ({ c with renderContext := 0 }, Sys.wglDeleteContext api c.renderContext s)
  else (c, s)

/-- Lines 101-106: the destructor. -/
def WindowedGLContext.destruct (api : Win32 W) (c : WindowedGLContext) (s : Sys W) : Sys W :=
  let d := deleteContext api c s
  let s := Sys.ReleaseDC api (api.getNativeHandle d.1.nativeWindow d.2.world) d.1.dc d.2
  (nativeWindow.assign api d.1 0 s).2

/-- The members of `OpenGLComponent` that `createContext` reads.
`contextToShareListsWith` is `none` for `nullptr` and otherwise holds what the
pointee returns from `getRawContext()`. -/
structure OpenGLComponent where
  component : Nat
  contextToShareListsWith : Option HGLRC
  preferredPixelFormat : OpenGLPixelFormat

/-- Lines 453-455 of `createContext`: the object that the local
`ScopedPointer<WindowedGLContext> c` is initialised with. -/
def OpenGLComponent.createContext.newContext (api : Win32 W) (comp : OpenGLComponent)
    (s : Sys W) : WindowedGLContext × Sys W :=
  WindowedGLContext.construct api comp.component (comp.contextToShareListsWith.getD 0)
    comp.preferredPixelFormat s

/-- Lines 451-458. The result is `none` for `nullptr`; in that case the
`ScopedPointer` still owns the object when it goes out of scope and destroys
it. -/
def OpenGLComponent.createContext (api : Win32 W) (comp : OpenGLComponent) (s : Sys W) :
    Option WindowedGLContext × Sys W :=
  let c := OpenGLComponent.createContext.newContext api comp s
  if c.1.renderContext != 0 then (some c.1, c.2)
  else (none, WindowedGLContext.destruct api c.1 c.2)

/-! ## Reading the call log -/

/-- The native entry points, as names of calls. -/
inductive NativeFunction where
  | wglMakeCurrent
  | wglCreateContext
  | wglDeleteContext
  | wglShareLists
  | ChoosePixelFormat
  | wglChoosePixelFormatARB
  | SetPixelFormat
  | DescribePixelFormat
  | wglGetPixelFormatAttribivARB
  | createNonRepaintingEmbeddedWindowsPeer
  | deletePeer
  | setVisible
  | GetDC
  | ReleaseDC
  deriving DecidableEq, Repr

/-- Which entry point a logged call went to. -/
def NativeCall.function : NativeCall → NativeFunction
  | .wglMakeCurrent _ _ _ => .wglMakeCurrent
  | .wglCreateContext _ _ => .wglCreateContext
  | .wglDeleteContext _ => .wglDeleteContext
  | .wglShareLists _ _ => .wglShareLists
  | .ChoosePixelFormat _ _ _ => .ChoosePixelFormat
  | .wglChoosePixelFormatARB _ _ _ _ => .wglChoosePixelFormatARB
  | .SetPixelFormat _ _ _ _ => .SetPixelFormat
  | .DescribePixelFormat _ _ _ _ _ => .DescribePixelFormat
  | .wglGetPixelFormatAttribivARB _ _ _ _ _ => .wglGetPixelFormatAttribivARB
  | .createNonRepaintingEmbeddedWindowsPeer _ _ => .createNonRepaintingEmbeddedWindowsPeer
  | .deletePeer _ => .deletePeer
  | .setVisible _ _ => .setVisible
  | .GetDC _ _ => .GetDC
  | .ReleaseDC _ _ => .ReleaseDC

/-- The calls logged after the state `before`, up to the state `after`. -/
def newCalls (before after : Sys W) : List NativeCall :=
  after.log.drop before.log.length

/-- The `calls` that went to one of the entry points `fs`, in call order. -/
def callsTo (fs : List NativeFunction) (calls : List NativeCall) : List NativeCall :=
  calls.filter (fun e => decide (e.function ∈ fs))

/-- How many of the `calls` went to one of the entry points `fs`. -/
def countCalls (fs : List NativeFunction) (calls : List NativeCall) : Nat :=
  (callsTo fs calls).length

/-- The calls that release, destroy, create or configure the native surface:
`ReleaseDC`, the destruction of a window peer, the creation of a window peer,
`GetDC` and `SetPixelFormat`. -/
def surfaceCalls (calls : List NativeCall) : List NativeCall :=
  callsTo [NativeFunction.ReleaseDC, NativeFunction.deletePeer,
    NativeFunction.createNonRepaintingEmbeddedWindowsPeer, NativeFunction.GetDC,
    NativeFunction.SetPixelFormat] calls

/-- The attribute lists that the `calls` handed to `wglChoosePixelFormatARB`,
in call order. -/
def chooserAttributes : List NativeCall → List (List Int)
  | [] => []
  | .wglChoosePixelFormatARB _ attributes _ _ :: rest => attributes :: chooserAttributes rest
  | _ :: rest => chooserAttributes rest

/-- The entries of an attribute list that stand at name positions
(`0, 2, 4, ...`). -/
def attributeNames : List Int → List Int
  | [] => []
  | [a] => [a]
  | a :: _ :: rest => a :: attributeNames rest

/-- The name/value pairs of an attribute list (a trailing lone entry, the
terminator, is not a pair). -/
def attributePairs : List Int → List (Int × Int)
  | a :: v :: rest => (a, v) :: attributePairs rest
  | _ => []

/-- Whether `setPixelFormat` takes the extended path in world `w`: the condition
of lines 181-182. -/
def extendedChooserAvailable (api : Win32 W) (w : W) : Bool :=
  api.isExtensionSupported "WGL_ARB_pixel_format" w
    && api.wglGetProcAddress "wglChoosePixelFormatARB" w

/-- The attribute list as the specification describes it: the five fixed
requirements, the colour depth truncated to eight bits, the per-channel bit
depths, the stencil pair only for a positive stencil depth, the accumulation
depths, the multisample pairs only when multisampling is supported and asked
for, and one terminating `0`. -/
def referenceAttributes (multisample : Bool) (pf : OpenGLPixelFormat) : List Int :=
  [0x2001, 1, 0x2010, 1, 0x2003, 0x2027, 0x2011, 1, 0x2013, 0x202B,
    0x2014, (pf.redBits + pf.greenBits + pf.blueBits) % 256,
    0x2015, pf.redBits, 0x2017, pf.greenBits, 0x2019, pf.blueBits,
    0x201B, pf.alphaBits, 0x2022, pf.depthBufferBits]
  ++ (if pf.stencilBufferBits > 0 then [0x2023, pf.stencilBufferBits] else [])
  ++ [0x201E, pf.accumulationBufferRedBits, 0x201F, pf.accumulationBufferGreenBits,
      0x2020, pf.accumulationBufferBlueBits, 0x2021, pf.accumulationBufferAlphaBits]
  ++ (if multisample = true ∧ pf.fullSceneAntiAliasingNumSamples > 0 then
        [0x2041, 1, 0x2042, pf.fullSceneAntiAliasingNumSamples]
      else [])
  ++ [0]

/-- What lines 247-267 log for a non-zero format index, as a relation between
the object `c` on entry, the logged calls `rest`, the returned flag `r` and the
object `c2` afterwards: an optional deactivation, the release of the old device
context, the destruction of the old peer (when there is one), the creation of
the new peer and device context, `SetPixelFormat` on the new device context
and, when that succeeds, the replacement of the render context. -/
def IsRecreation (c : WindowedGLContext) (format : Int) (pfd : PIXELFORMATDESCRIPTOR)
    (rest : List NativeCall) (r : Bool) (c2 : WindowedGLContext) : Prop :=
  ∃ (inact : List NativeCall) (hwnd hwnd2 : HWND) (ok : Bool) (h : HGLRC),
    (inact = [] ∨ ∃ b, inact = [NativeCall.wglMakeCurrent 0 0 b]) ∧
    rest = inact ++ [NativeCall.ReleaseDC hwnd c.dc]
      ++ (if c.nativeWindow = 0 then [] else [NativeCall.deletePeer c.nativeWindow])
      ++ [NativeCall.createNonRepaintingEmbeddedWindowsPeer c.component c2.nativeWindow,
          NativeCall.setVisible c2.nativeWindow true, NativeCall.GetDC hwnd2 c2.dc,
          NativeCall.SetPixelFormat c2.dc format pfd ok]
      ++ (if ok = true then
            [NativeCall.wglDeleteContext c.renderContext, NativeCall.wglCreateContext c2.dc h]
          else []) ∧
    r = (ok && h != 0) ∧
    c2.renderContext = (if ok = true then h else c.renderContext) ∧
    c2.component = c.component

/-! ## A simulated driver

A small executable native environment, used to run the embedding on concrete
inputs. -/

/-- The fixed properties of a simulated driver: which extensions it advertises,
the pixel formats it enumerates (format index `i + 1` is `formats[i]`, with its
multisample count), the index its choosers return, whether
`SetPixelFormat` succeeds, and whether `wglCreateContext` succeeds. -/
structure SimDriver where
  pixelFormatExt : Bool
  multisampleExt : Bool
  formats : List (PIXELFORMATDESCRIPTOR × Int)
  chosen : Int
  setPixelFormatOk : Bool
  createContextOk : Bool := true

/-- The state of the simulated world: the calling thread's current render
context and the number of handles given out so far. -/
structure SimWorld where
  current : HGLRC
  handles : Nat
  deriving DecidableEq, Repr

/-- The value a simulated driver reports for one WGL attribute of a format. -/
def SimDriver.attribute (f : PIXELFORMATDESCRIPTOR × Int) (name : Int) : Int :=
  if name = WGL_DRAW_TO_WINDOW_ARB then
    (if f.1.dwFlags &&& PFD_DRAW_TO_WINDOW = 0 then 0 else 1)
  else if name = WGL_SUPPORT_OPENGL_ARB then
    (if f.1.dwFlags &&& PFD_SUPPORT_OPENGL = 0 then 0 else 1)
  else if name = WGL_ACCELERATION_ARB then
    (if f.1.dwFlags &&& PFD_GENERIC_FORMAT = 0 then WGL_FULL_ACCELERATION_ARB else 0x2025)
  else if name = WGL_DOUBLE_BUFFER_ARB then
    (if f.1.dwFlags &&& PFD_DOUBLEBUFFER = 0 then 0 else 1)
  else if name = WGL_PIXEL_TYPE_ARB then
    (if f.1.iPixelType = PFD_TYPE_RGBA then WGL_TYPE_RGBA_ARB else 0x202C)
  else if name = WGL_RED_BITS_ARB then f.1.cRedBits
  else if name = WGL_GREEN_BITS_ARB then f.1.cGreenBits
  else if name = WGL_BLUE_BITS_ARB then f.1.cBlueBits
  else if name = WGL_ALPHA_BITS_ARB then f.1.cAlphaBits
  else if name = WGL_DEPTH_BITS_ARB then f.1.cDepthBits
  else if name = WGL_STENCIL_BITS_ARB then f.1.cStencilBits
  else if name = WGL_ACCUM_RED_BITS_ARB then f.1.cAccumRedBits
  else if name = WGL_ACCUM_GREEN_BITS_ARB then f.1.cAccumGreenBits
  else if name = WGL_ACCUM_BLUE_BITS_ARB then f.1.cAccumBlueBits
  else if name = WGL_ACCUM_ALPHA_BITS_ARB then f.1.cAccumAlphaBits
  else if name = WGL_SAMPLES_ARB then f.2
  else 0

/-- The format with a given index, if the driver has one. -/
def SimDriver.format (d : SimDriver) (index : Int) : Option (PIXELFORMATDESCRIPTOR × Int) :=
  if 1 ≤ index then d.formats[(index - 1).toNat]? else none

/-- The native environment of a simulated driver. Handles are given out in
increasing order, starting at `1`. -/
def simApi (d : SimDriver) : Win32 SimWorld where
  isExtensionSupported := fun name _ =>
    if name = "WGL_ARB_multisample" then d.multisampleExt else d.pixelFormatExt
  wglGetProcAddress := fun _ _ => d.pixelFormatExt
  wglGetCurrentContext := fun w => w.current
  getNativeHandle := fun peer _ => peer
  wglMakeCurrent := fun _ rc w => (true, { w with current := rc })
  wglCreateContext := fun _ w =>
    if d.createContextOk then (w.handles + 1, { w with handles := w.handles + 1 }) else (0, w)
  wglDeleteContext := fun rc w => if w.current = rc then { w with current := 0 } else w
  wglShareLists := fun _ _ w => w
  ChoosePixelFormat := fun _ _ w => (d.chosen, w)
  wglChoosePixelFormatARB := fun _ _ w => ((true, some d.chosen), w)
  SetPixelFormat := fun _ _ _ w => (d.setPixelFormatOk, w)
  DescribePixelFormat := fun _ index _ w =>
    match d.format index with
    | some f => ((d.formats.length, f.1), w)
    | none => ((if index = 0 then d.formats.length else 0, {}), w)
  wglGetPixelFormatAttribivARB := fun _ index attributes w =>
    if attributes = [WGL_NUMBER_PIXEL_FORMATS_ARB] then ((true, [(d.formats.length : Int)]), w)
    else
      match d.format index with
      | some f => ((true, attributes.map (SimDriver.attribute f)), w)
      | none => ((false, []), w)
  createNonRepaintingEmbeddedWindowsPeer := fun _ w =>
    (w.handles + 1, { w with handles := w.handles + 1 })
  deletePeer := fun _ w => w
  setVisible := fun _ _ w => w
  GetDC := fun _ w => (w.handles + 1, { w with handles := w.handles + 1 })
  ReleaseDC := fun _ _ w => w

/-- The world before anything has been created, with an empty call log. -/
def simStart : Sys SimWorld := ⟨⟨0, 0⟩, []⟩

/-- A world in which three handles have been given out and render context `3`
is current, with an empty call log. -/
def simReady : Sys SimWorld := ⟨⟨3, 3⟩, []⟩

/-- An existing context in `simReady`: render context `3` on device context `2`
of window peer `1`, owned by component `1`. -/
def simContext : WindowedGLContext :=
  { renderContext := 3, nativeWindow := 1, component := 1, dc := 2 }

/-- A request for 8 bits per colour channel, 8 alpha bits, a 16-bit depth
buffer, no stencil buffer and no multisampling. -/
def simRequest : OpenGLPixelFormat :=
  { redBits := 8, greenBits := 8, blueBits := 8, alphaBits := 8, depthBufferBits := 16
    stencilBufferBits := 0
    accumulationBufferRedBits := 0, accumulationBufferGreenBits := 0
    accumulationBufferBlueBits := 0, accumulationBufferAlphaBits := 0
    fullSceneAntiAliasingNumSamples := 0 }

/-- A double-buffered, accelerated RGBA window format with 8-bit channels and a
16-bit depth buffer. -/
def simFormatRGBA : PIXELFORMATDESCRIPTOR :=
  { nSize := sizeofPFD, nVersion := 1
    dwFlags := PFD_DRAW_TO_WINDOW ||| PFD_SUPPORT_OPENGL ||| PFD_DOUBLEBUFFER
    iPixelType := PFD_TYPE_RGBA
    cColorBits := 24, cRedBits := 8, cGreenBits := 8, cBlueBits := 8, cDepthBits := 16 }

/-- A single-buffered colour-index window format with a 24-bit depth buffer:
it is not double-buffered and its pixel type is not RGBA. -/
def simFormatSingleBuffered : PIXELFORMATDESCRIPTOR :=
  { nSize := sizeofPFD, nVersion := 1
    dwFlags := PFD_DRAW_TO_WINDOW ||| PFD_SUPPORT_OPENGL
    iPixelType := 1
    cColorBits := 24, cRedBits := 8, cGreenBits := 8, cBlueBits := 8, cDepthBits := 24 }

/-- A driver with the pixel-format and multisample extensions whose choosers
return format `1`. -/
def simExtendedDriver : SimDriver :=
  { pixelFormatExt := true, multisampleExt := true
    formats := [(simFormatRGBA, 0), (simFormatSingleBuffered, 0), (simFormatRGBA, 4),
      (simFormatRGBA, 0)]
    chosen := 1, setPixelFormatOk := true }

/-- A driver without any extension: every query takes the legacy path. Its
only format is the single-buffered colour-index one. -/
def simLegacyDriver : SimDriver :=
  { pixelFormatExt := false, multisampleExt := false
    formats := [(simFormatSingleBuffered, 0)]
    chosen := 1, setPixelFormatOk := true }

/-- A driver on which `wglCreateContext` always fails. -/
def simNoContextDriver : SimDriver :=
  { pixelFormatExt := false, multisampleExt := false
    formats := [(simFormatRGBA, 0)]
    chosen := 1, setPixelFormatOk := true, createContextOk := false }

/-- A driver whose choosers find no format. -/
def simNoFormatDriver : SimDriver :=
  { pixelFormatExt := false, multisampleExt := false
    formats := []
    chosen := 0, setPixelFormatOk := true }

/-! ## Reading the enumeration -/
/-- A sequence of descriptors with every later duplicate removed: the first
occurrence is kept and the order is preserved. -/
def keepFirstOccurrences : List OpenGLPixelFormat → List OpenGLPixelFormat
  | [] => []
  | x :: rest => x :: (keepFirstOccurrences rest).filter (fun y => !(y.eq x))

/-- The outcomes of resolving `count` consecutive format indices, starting after
index `i`: for each index, in ascending order, the index, what
`fillInPixelFormatDetails` returned and the descriptor it left in `pf`. -/
def resolveInOrder (api : Win32 W) (c : WindowedGLContext) :
    Nat → Int → OpenGLPixelFormat → Sys W → List (Int × Bool × OpenGLPixelFormat) × Sys W
  | 0, _, _, s => ([], s)
  | count + 1, i, pf, s =>
    let f := fillInPixelFormatDetails api c (i + 1) pf s
    let r := resolveInOrder api c count (i + 1) f.2.1 f.2.2
    ((i + 1, f.1, f.2.1) :: r.1, r.2)

/-- The descriptors of the indices for which `fillInPixelFormatDetails`
returned `true`, in index order. -/
def validDescriptors (outcomes : List (Int × Bool × OpenGLPixelFormat)) :
    List OpenGLPixelFormat :=
  (outcomes.filter (fun o => o.2.1)).map (fun o => o.2.2)

/-- The format index that a logged query asks about. -/
def NativeCall.queriedFormat : NativeCall → Option Int
  | .DescribePixelFormat _ index _ _ _ => some index
  | .wglGetPixelFormatAttribivARB _ index _ _ _ => some index
  | _ => none

/-- Lines 393-411 read as a function of the first sixteen values. -/
def fillInPixelFormatDetails.fromFirstSixteen : List Int → Bool × OpenGLPixelFormat
  | [v0, v1, v2, v3, v4, v5, v6, v7, v8, v9, v10, v11, v12, v13, v14, v15] =>
    (v4 == WGL_TYPE_RGBA_ARB && (v3 == GL_TRUE && (v2 == WGL_FULL_ACCELERATION_ARB
        && (v1 == GL_TRUE && v0 == GL_TRUE))),
      { redBits := v5, greenBits := v6, blueBits := v7, alphaBits := v8
        depthBufferBits := v9, stencilBufferBits := v10
        accumulationBufferRedBits := v11, accumulationBufferGreenBits := v12
        accumulationBufferBlueBits := v13, accumulationBufferAlphaBits := v14
        fullSceneAntiAliasingNumSamples := toBYTE v15 })
  | _ => (false, ⟨0, 0, 0, 0, 0, 0, 0, 0, 0, 0, 0⟩)

/-! ## `MainHostWindow`

A shallow embedding of the menu and command handling of
`extras/audio plugin host/src/host/MainHostWindow.cpp`. A `const PluginDescription*`
is a value of an arbitrary type `D` (`none` for a null pointer); what the window
does to the graph document, the settings and other windows is appended to a list
of actions. -/

/-- The command ids that the file uses: the constants of namespace `CommandIDs`
(declared in `MainHostWindow.h`) and `StandardApplicationCommandIDs::quit`. Their
values are not in the files at hand and are taken as parameters. `open_` stands
for `CommandIDs::open`. -/
structure CommandIDs where
  open_ : Int
  save : Int
  saveAs : Int
  showPluginListEditor : Int
  showAudioSettings : Int
  aboutBox : Int
  quit : Int

/-- The enum `KnownPluginList::SortMethod`, declared outside the files at hand,
with the four enumerators that the source names. `other` stands for a value that
is none of them (line 124 casts a stored `int` to the enum). -/
inductive SortMethod where
  | defaultOrder
  | sortAlphabetically
  | sortByCategory
  | sortByManufacturer
  | other (value : Int)
  deriving DecidableEq, Repr

/-- One entry of a `PopupMenu`. -/
inductive MenuItem where
  | item (itemResultId : Int) (itemText : String) (isActive : Bool) (isTicked : Bool)
  | commandItem (commandID : Int)
  | separator
  | subMenu (subMenuName : String) (subMenu : List MenuItem)

/-- The members of `KnownPluginList` that the file calls (framework code):
the items `addToMenu` appends to a menu, `getIndexChosenByMenu` and `getType`. -/
structure KnownPluginList (D : Type) where
  addToMenu : SortMethod → List MenuItem
  getIndexChosenByMenu : Int → Int
  getType : Int → Option D

/-- The data members of `MainHostWindow` that the menu code reads and writes.
`internalTypes` is the `OwnedArray <PluginDescription>`, as the list of the
objects it holds. -/
structure MainHostWindow (D : Type) where
  internalTypes : List D
  knownPluginList : KnownPluginList D
  pluginSortMethod : SortMethod

/-- What the window does to its surroundings. -/
inductive HostAction (D : Type) where
  | graphClear
  | saveIfNeededAndUserAgrees
  | loadFrom (recentFileIndex : Int)
  | loadFromUserSpecifiedFile
  | save
  | saveAs
  | setValue (keyName : String) (value : SortMethod)
  | createNewPlugin (desc : Option D)
  | newPluginListWindow
  | toFront
  | showModalDialog
  | saveAudioDeviceState
  | removeIllegalConnections

/-- The surroundings of the window: whether `getGraphEditor()` is non-null,
whether `saveIfNeededAndUserAgrees()` answers `savedOk`, whether
`PluginListWindow::currentPluginListWindow` is non-null, and the actions
performed so far. -/
structure HostWorld (D : Type) where
  graphEditor : Bool
  savedOk : Bool
  currentPluginListWindow : Bool
  actions : List (HostAction D)

variable {D : Type}

/-- Performing one action. -/
def HostWorld.act (w : HostWorld D) (a : HostAction D) : HostWorld D :=
  { w with actions := w.actions ++ [a] }

/-- Lines 298-299 of `addPluginsToMenu`: the loop over `internalTypes`, at index
`i` with `types` still to come. `name` reads the member `name` of a description.
`addItem (id, text)` adds an active, unticked item. -/
def MainHostWindow.addPluginsToMenu.loop (name : D → String) :
    List D → Nat → List MenuItem → List MenuItem
  | [], _, m => m
  | d :: types, i, m =>
    MainHostWindow.addPluginsToMenu.loop name types (i + 1)
      (m ++ [MenuItem.item ((i : Int) + 1) (name d) true false])

/-- Lines 296-304. -/
def MainHostWindow.addPluginsToMenu (name : D → String) (h : MainHostWindow D)
    (m : List MenuItem) : List MenuItem :=
  let m := MainHostWindow.addPluginsToMenu.loop name h.internalTypes 0 m
  let m := m ++ [MenuItem.separator]
  m ++ h.knownPluginList.addToMenu h.pluginSortMethod

/-- Lines 306-316. `internalTypes [menuID - 1]` is a checked access that yields
a null pointer outside the array. -/
def MainHostWindow.getChosenType (h : MainHostWindow D) (menuID : Int) : Option D :=
  if menuID ≥ 1 ∧ menuID < 1 + (h.internalTypes.length : Int) then
    h.internalTypes[(menuID - 1).toNat]?
  else
    h.knownPluginList.getType (h.knownPluginList.getIndexChosenByMenu menuID)

/-- Lines 324-336: the ids appended to `commands`. -/
def MainHostWindow.getAllCommands (ids : CommandIDs) (commands : List Int) : List Int :=
  commands ++ [ids.open_, ids.save, ids.saveAs, ids.showPluginListEditor,
    ids.showAudioSettings, ids.aboutBox]

/-- Lines 436-464. -/
def MainHostWindow.showAudioSettings (w : HostWorld D) : HostWorld D :=
  let w := w.act HostAction.showModalDialog
  let w := w.act HostAction.saveAudioDeviceState
  if w.graphEditor then w.act HostAction.removeIllegalConnections else w

/-- Lines 384-434. The `switch` over the distinct case labels is the chain of
comparisons; every case ends in `break` and so in `return true`. -/
def MainHostWindow.perform (ids : CommandIDs) (commandID : Int) (w : HostWorld D) :
    Bool × HostWorld D :=
  if commandID = ids.open_ then
    (true,
      if w.graphEditor then
        let w := w.act HostAction.saveIfNeededAndUserAgrees
        if w.savedOk then w.act HostAction.loadFromUserSpecifiedFile else w
      else w)
  else if commandID = ids.save then
    (true, if w.graphEditor then w.act HostAction.save else w)
  else if commandID = ids.saveAs then
    (true, if w.graphEditor then w.act HostAction.saveAs else w)
  else if commandID = ids.showPluginListEditor then
    let w :=
      if !w.currentPluginListWindow then
        { w.act HostAction.newPluginListWindow with currentPluginListWindow := true }
      else w
    (true, w.act HostAction.toFront)
  else if commandID = ids.showAudioSettings then
    (true, MainHostWindow.showAudioSettings w)
  else if commandID = ids.aboutBox then
    (true, w)
  else
    (false, w)

/-- Lines 288-294. The coordinates, which lines 283-284 compute from random
floating-point numbers, are left out. -/
def MainHostWindow.createPlugin (desc : Option D) (w : HostWorld D) : HostWorld D :=
  if w.graphEditor then w.act (HostAction.createNewPlugin desc) else w

/-- Lines 248-286. -/
def MainHostWindow.menuItemSelected (h : MainHostWindow D) (menuItemID : Int)
    (w : HostWorld D) : MainHostWindow D × HostWorld D :=
  if menuItemID = 250 then
    (h, if w.graphEditor then w.act HostAction.graphClear else w)
  else if menuItemID ≥ 100 ∧ menuItemID < 200 then
    (h,
      if w.graphEditor then
        let w := w.act HostAction.saveIfNeededAndUserAgrees
        if w.savedOk then w.act (HostAction.loadFrom (menuItemID - 100)) else w
      else w)
  else if menuItemID ≥ 200 ∧ menuItemID < 210 then
    let h :=
      if menuItemID = 200 then { h with pluginSortMethod := SortMethod.defaultOrder }
      else if menuItemID = 201 then { h with pluginSortMethod := SortMethod.sortAlphabetically }
      else if menuItemID = 202 then { h with pluginSortMethod := SortMethod.sortByCategory }
      else if menuItemID = 203 then { h with pluginSortMethod := SortMethod.sortByManufacturer }
      else h
    (h, w.act (HostAction.setValue "pluginSortMethod" h.pluginSortMethod))
  else
    (h, MainHostWindow.createPlugin (MainHostWindow.getChosenType h menuItemID) w)

/-- Lines 193-246. `recentFilesMenu` holds the items that
`RecentlyOpenedFilesList::createPopupMenuItems` (framework code) produces. -/
def MainHostWindow.getMenuForIndex (ids : CommandIDs) (name : D → String)
    (recentFilesMenu : List MenuItem) (h : MainHostWindow D) (topLevelMenuIndex : Int) :
    List MenuItem :=
  if topLevelMenuIndex = 0 then
    [MenuItem.commandItem ids.open_,
      MenuItem.subMenu "Open recent file" recentFilesMenu,
      MenuItem.commandItem ids.save,
      MenuItem.commandItem ids.saveAs,
      MenuItem.separator,
      MenuItem.commandItem ids.quit]
  else if topLevelMenuIndex = 1 then
    [MenuItem.subMenu "Create plugin" (MainHostWindow.addPluginsToMenu name h []),
      MenuItem.separator,
      MenuItem.item 250 "Delete all plugins" true false]
  else if topLevelMenuIndex = 2 then
    [MenuItem.commandItem ids.showPluginListEditor,
      MenuItem.subMenu "Plugin menu type"
        [MenuItem.item 200 "List plugins in default order" true
            (h.pluginSortMethod == SortMethod.defaultOrder),
          MenuItem.item 201 "List plugins in alphabetical order" true
            (h.pluginSortMethod == SortMethod.sortAlphabetically),
          MenuItem.item 202 "List plugins by category" true
            (h.pluginSortMethod == SortMethod.sortByCategory),
          MenuItem.item 203 "List plugins by manufacturer" true
            (h.pluginSortMethod == SortMethod.sortByManufacturer)],
      MenuItem.separator,
      MenuItem.commandItem ids.showAudioSettings,
      MenuItem.separator,
      MenuItem.commandItem ids.aboutBox]
  else []

/-- The items of the first sub-menu with the given name. -/
def subMenuNamed (subMenuName : String) : List MenuItem → Option (List MenuItem)
  | [] => none
  | MenuItem.subMenu n items :: rest =>
    if n = subMenuName then some items else subMenuNamed subMenuName rest
  | _ :: rest => subMenuNamed subMenuName rest

/-- The ids of the ticked items of a menu, in menu order. -/
def tickedIds : List MenuItem → List Int
  | [] => []
  | MenuItem.item itemResultId _ _ true :: rest => itemResultId :: tickedIds rest
  | _ :: rest => tickedIds rest

/-- The ids of the plain items of a menu, in menu order. -/
def itemIds : List MenuItem → List Int
  | [] => []
  | MenuItem.item itemResultId _ _ _ :: rest => itemResultId :: itemIds rest
  | _ :: rest => itemIds rest

/-- A window with three built-in plugin types (named by their text), a known
plugin list that resolves menu id `1000 + k` to the plugin `k` of
`["Reverb", "Delay"]`, and the sort method the constructor defaults to. -/
def simHostWindow : MainHostWindow String :=
  { internalTypes := ["Audio Input", "Audio Output", "Midi Input"]
    knownPluginList :=
      { addToMenu := fun _ =>
          [MenuItem.item 1000 "Reverb" true false, MenuItem.item 1001 "Delay" true false]
        getIndexChosenByMenu := fun menuID => menuID - 1000
        getType := fun index => if 0 ≤ index then ["Reverb", "Delay"][index.toNat]? else none }
    pluginSortMethod := SortMethod.sortByManufacturer }

/-- Surroundings with a graph editor, a user who agrees to save, no plugin list
window, and no action performed yet. -/
def simHostWorld : HostWorld String :=
  { graphEditor := true, savedOk := true, currentPluginListWindow := false, actions := [] }

/-! ## Theorems -/

/-- The stores of lines 187-235 fill `attributes` with the reference list of the
specification; none of them falls outside the 64 entries. -/
theorem attributes_stored (ms : Bool) (pf : OpenGLPixelFormat) :
    (setPixelFormat.attributes ms pf (setPixelFormat.descriptor pf)).stored
      = referenceAttributes ms pf := by
  by_cases h1 : pf.stencilBufferBits > 0 <;>
    by_cases h2 : pf.fullSceneAntiAliasingNumSamples > 0 <;>
    cases ms <;>
    simp [setPixelFormat.attributes, setPixelFormat.descriptor, IntArray.store,
      referenceAttributes, toBYTE, h1, h2, WGL_DRAW_TO_WINDOW_ARB, WGL_SUPPORT_OPENGL_ARB,
      WGL_ACCELERATION_ARB, WGL_FULL_ACCELERATION_ARB, WGL_DOUBLE_BUFFER_ARB,
      WGL_PIXEL_TYPE_ARB, WGL_TYPE_RGBA_ARB, WGL_COLOR_BITS_ARB, WGL_RED_BITS_ARB,
      WGL_GREEN_BITS_ARB, WGL_BLUE_BITS_ARB, WGL_ALPHA_BITS_ARB, WGL_DEPTH_BITS_ARB,
      WGL_STENCIL_BITS_ARB, WGL_ACCUM_RED_BITS_ARB, WGL_ACCUM_GREEN_BITS_ARB,
      WGL_ACCUM_BLUE_BITS_ARB, WGL_ACCUM_ALPHA_BITS_ARB, WGL_SAMPLE_BUFFERS_ARB,
      WGL_SAMPLES_ARB, GL_TRUE]


/-- The extended path of lines 181-241. -/
theorem chooseFormat_extended (api : Win32 W) (pf : OpenGLPixelFormat) (c : WindowedGLContext)
    (s : Sys W) (h : extendedChooserAvailable api (makeActive api c s).2.world = true) :
    setPixelFormat.chooseFormat api pf c s =
      (((Sys.wglChoosePixelFormatARB api c.dc
          (referenceAttributes
            (api.isExtensionSupported "WGL_ARB_multisample" (makeActive api c s).2.world) pf)
          (makeActive api c s).2).1.2).getD 0,
        setPixelFormat.descriptor pf,
        (Sys.wglChoosePixelFormatARB api c.dc
          (referenceAttributes
            (api.isExtensionSupported "WGL_ARB_multisample" (makeActive api c s).2.world) pf)
          (makeActive api c s).2).2) := by
  simp only [extendedChooserAvailable] at h
  simp only [setPixelFormat.chooseFormat, h, if_true, attributes_stored]

/-- The legacy path of lines 242-245. -/
theorem chooseFormat_legacy (api : Win32 W) (pf : OpenGLPixelFormat) (c : WindowedGLContext)
    (s : Sys W) (h : extendedChooserAvailable api (makeActive api c s).2.world = false) :
    setPixelFormat.chooseFormat api pf c s =
      ((Sys.ChoosePixelFormat api c.dc (setPixelFormat.descriptor pf) (makeActive api c s).2).1,
        setPixelFormat.descriptor pf,
        (Sys.ChoosePixelFormat api c.dc (setPixelFormat.descriptor pf)
          (makeActive api c s).2).2) := by
  simp only [extendedChooserAvailable] at h
  simp [setPixelFormat.chooseFormat, h]
/-- The call log of `makeInactive`: nothing, or one `wglMakeCurrent (0, 0)`. -/
theorem makeInactive_log (api : Win32 W) (c : WindowedGLContext) (s : Sys W) :
    ∃ inact : List NativeCall,
      (inact = [] ∨ ∃ b, inact = [NativeCall.wglMakeCurrent 0 0 b]) ∧
      (makeInactive api c s).2.log = s.log ++ inact := by
  unfold makeInactive
  by_cases h : isActive api c s = true
  · exact ⟨[NativeCall.wglMakeCurrent 0 0 (api.wglMakeCurrent 0 0 s.world).1],
      Or.inr ⟨_, rfl⟩, by simp [h, Sys.wglMakeCurrent]⟩
  · exact ⟨[], Or.inl rfl, by simp [h]⟩

/-- The statement `nativeWindow = nullptr`: the held peer, if any, is deleted. -/
theorem assign_null (api : Win32 W) (c : WindowedGLContext) (s : Sys W) :
    (nativeWindow.assign api c 0 s).1 = { c with nativeWindow := 0 } ∧
    (nativeWindow.assign api c 0 s).2.log =
      s.log ++ (if c.nativeWindow = 0 then [] else [NativeCall.deletePeer c.nativeWindow]) := by
  unfold nativeWindow.assign
  by_cases h : c.nativeWindow = 0
  · simp [h]
    rw [← h]
  · simp [h, Sys.deletePeer]


/-- The call log of `createNativeWindow` when no peer is held on entry. -/
theorem createNativeWindow_fresh (api : Win32 W) (c : WindowedGLContext) (s : Sys W)
    (h : c.nativeWindow = 0) :
    (createNativeWindow api c s).1.renderContext = c.renderContext ∧
    (createNativeWindow api c s).1.component = c.component ∧
    ∃ hwnd : HWND,
      (createNativeWindow api c s).2.log =
        s.log ++ [NativeCall.createNonRepaintingEmbeddedWindowsPeer c.component
            (createNativeWindow api c s).1.nativeWindow,
          NativeCall.setVisible (createNativeWindow api c s).1.nativeWindow true,
          NativeCall.GetDC hwnd (createNativeWindow api c s).1.dc] := by
  by_cases hp : (api.createNonRepaintingEmbeddedWindowsPeer c.component s.world).1 = 0
  · simp [createNativeWindow, nativeWindow.assign, Sys.createNonRepaintingEmbeddedWindowsPeer,
      h, hp, Sys.GetDC, Sys.setVisible]
  · simp [createNativeWindow, nativeWindow.assign, Sys.createNonRepaintingEmbeddedWindowsPeer,
      h, hp, Sys.GetDC, Sys.setVisible, Ne.symm hp]

/-- The call log, result and object of lines 247-267 for a non-zero index. -/
theorem applyFormat_nonzero (api : Win32 W) (c : WindowedGLContext) (format : Int)
    (pfd : PIXELFORMATDESCRIPTOR) (s : Sys W) (hf : format ≠ 0) :
    ∃ (inact : List NativeCall) (hwnd hwnd2 : HWND) (p : Peer) (d : HDC) (ok : Bool) (h : HGLRC),
      (inact = [] ∨ ∃ b, inact = [NativeCall.wglMakeCurrent 0 0 b]) ∧
      (setPixelFormat.applyFormat api c format pfd s).2.2.log =
        s.log ++ (inact ++ [NativeCall.ReleaseDC hwnd c.dc]
          ++ (if c.nativeWindow = 0 then [] else [NativeCall.deletePeer c.nativeWindow])
          ++ [NativeCall.createNonRepaintingEmbeddedWindowsPeer c.component p,
              NativeCall.setVisible p true, NativeCall.GetDC hwnd2 d,
              NativeCall.SetPixelFormat d format pfd ok]
          ++ (if ok = true then
                [NativeCall.wglDeleteContext c.renderContext, NativeCall.wglCreateContext d h]
              else [])) ∧
      (setPixelFormat.applyFormat api c format pfd s).1 = (ok && h != 0) ∧
      (setPixelFormat.applyFormat api c format pfd s).2.1 =
        { renderContext := if ok = true then h else c.renderContext
          nativeWindow := p
          component := c.component
          dc := d } := by
  obtain ⟨inact, hinact, hlog1⟩ := makeInactive_log api c s
  generalize hs1 : (makeInactive api c s).2 = s1 at hlog1
  obtain ⟨ha1, ha2⟩ := assign_null api c
    (Sys.ReleaseDC api (api.getNativeHandle c.nativeWindow s1.world) c.dc s1)
  generalize hA : nativeWindow.assign api c 0
    (Sys.ReleaseDC api (api.getNativeHandle c.nativeWindow s1.world) c.dc s1) = A at ha1 ha2
  obtain ⟨hn1, hn2, hwnd2, hn3⟩ := createNativeWindow_fresh api A.1 A.2 (by rw [ha1])
  generalize hN : createNativeWindow api A.1 A.2 = N at hn1 hn2 hn3
  refine ⟨inact, api.getNativeHandle c.nativeWindow s1.world, hwnd2, N.1.nativeWindow, N.1.dc,
    (api.SetPixelFormat N.1.dc format pfd N.2.world).1,
    (api.wglCreateContext N.1.dc (api.wglDeleteContext c.renderContext
      (api.SetPixelFormat N.1.dc format pfd N.2.world).2)).1, hinact, ?_, ?_, ?_⟩
  all_goals
    simp only [setPixelFormat.applyFormat, bne_iff_ne, ne_eq, hf, not_false_eq_true, if_true,
      hs1, hA, hN, Sys.SetPixelFormat]
    by_cases hok : (api.SetPixelFormat N.1.dc format pfd N.2.world).1 = true
    · simp [hok, Sys.wglDeleteContext, Sys.wglCreateContext, hn1, hn2, hn3, ha1, ha2, hlog1,
        Sys.ReleaseDC]
    · simp [hok, Sys.wglDeleteContext, Sys.wglCreateContext, hn1, hn2, hn3, ha1, ha2, hlog1,
        Sys.ReleaseDC]
      try
        rw [ha1] at hn1 hn2
        obtain ⟨⟨rc, nw, comp, d⟩, n2⟩ := N
        simp only at hn1 hn2
        simp [hn1, hn2]

theorem chooserAttributes_append (l r : List NativeCall) :
    chooserAttributes (l ++ r) = chooserAttributes l ++ chooserAttributes r := by
  induction l with
  | nil => rfl
  | cons e l ih => cases e <;> simp [chooserAttributes, ih]

theorem callsTo_append (fs : List NativeFunction) (l r : List NativeCall) :
    callsTo fs (l ++ r) = callsTo fs l ++ callsTo fs r := by
  simp [callsTo]

theorem countCalls_append (fs : List NativeFunction) (l r : List NativeCall) :
    countCalls fs (l ++ r) = countCalls fs l + countCalls fs r := by
  simp [countCalls, callsTo_append]

theorem newCalls_of_log (s t : Sys W) (calls : List NativeCall) (h : t.log = s.log ++ calls) :
    newCalls s t = calls := by
  simp [newCalls, h]

/-- The calls of `chooseFormat`: the activation and one chooser call. -/
theorem chooseFormat_log (api : Win32 W) (pf : OpenGLPixelFormat) (c : WindowedGLContext)
    (s : Sys W) :
    ∃ (b : Bool) (e : NativeCall),
      (setPixelFormat.chooseFormat api pf c s).2.2.log
        = s.log ++ [NativeCall.wglMakeCurrent c.dc c.renderContext b, e]
      ∧ (setPixelFormat.chooseFormat api pf c s).2.1 = setPixelFormat.descriptor pf
      ∧ ((extendedChooserAvailable api (makeActive api c s).2.world = true ∧
            ∃ ok fmt, e = NativeCall.wglChoosePixelFormatARB c.dc
              (referenceAttributes
                (api.isExtensionSupported "WGL_ARB_multisample" (makeActive api c s).2.world) pf)
              ok fmt ∧ (setPixelFormat.chooseFormat api pf c s).1 = fmt.getD 0)
          ∨ (extendedChooserAvailable api (makeActive api c s).2.world = false ∧
              e = NativeCall.ChoosePixelFormat c.dc (setPixelFormat.descriptor pf)
                (setPixelFormat.chooseFormat api pf c s).1)) := by
  by_cases h : extendedChooserAvailable api (makeActive api c s).2.world = true
  · rw [chooseFormat_extended api pf c s h]
    refine ⟨(api.wglMakeCurrent c.dc c.renderContext s.world).1, _, ?_, rfl,
      Or.inl ⟨h, (Sys.wglChoosePixelFormatARB api c.dc
          (referenceAttributes
            (api.isExtensionSupported "WGL_ARB_multisample" (makeActive api c s).2.world) pf)
          (makeActive api c s).2).1.1, _, rfl, rfl⟩⟩
    simp [Sys.wglChoosePixelFormatARB, makeActive, Sys.wglMakeCurrent]
  · simp only [Bool.not_eq_true] at h
    rw [chooseFormat_legacy api pf c s h]
    refine ⟨(api.wglMakeCurrent c.dc c.renderContext s.world).1, _, ?_, rfl,
      Or.inr ⟨h, rfl⟩⟩
    simp [Sys.ChoosePixelFormat, makeActive, Sys.wglMakeCurrent]

/-- The outcome of `setPixelFormat` when no format was chosen. -/
theorem setPixelFormat_zero (api : Win32 W) (pf : OpenGLPixelFormat) (c : WindowedGLContext)
    (s : Sys W) (h0 : (setPixelFormat.chooseFormat api pf c s).1 = 0) :
    setPixelFormat api pf c s = (false, c, (setPixelFormat.chooseFormat api pf c s).2.2) := by
  simp [setPixelFormat, setPixelFormat.applyFormat, h0]

/-- The outcome of `setPixelFormat` when a format was chosen. -/
theorem setPixelFormat_nonzero (api : Win32 W) (pf : OpenGLPixelFormat) (c : WindowedGLContext)
    (s : Sys W) (hf : (setPixelFormat.chooseFormat api pf c s).1 ≠ 0) :
    ∃ rest : List NativeCall,
      (setPixelFormat api pf c s).2.2.log
        = (setPixelFormat.chooseFormat api pf c s).2.2.log ++ rest ∧
      IsRecreation c (setPixelFormat.chooseFormat api pf c s).1 (setPixelFormat.descriptor pf)
        rest (setPixelFormat api pf c s).1 (setPixelFormat api pf c s).2.1 := by
  obtain ⟨inact, hwnd, hwnd2, p, d, ok, h, hinact, hlog, hr, hc⟩ :=
    applyFormat_nonzero api c _ (setPixelFormat.chooseFormat api pf c s).2.1
      (setPixelFormat.chooseFormat api pf c s).2.2 hf
  obtain ⟨b, e, -, hpfd, -⟩ := chooseFormat_log api pf c s
  have hset : setPixelFormat api pf c s =
      setPixelFormat.applyFormat api c (setPixelFormat.chooseFormat api pf c s).1
        (setPixelFormat.chooseFormat api pf c s).2.1
        (setPixelFormat.chooseFormat api pf c s).2.2 := rfl
  rw [hset, hc, ← hpfd]
  exact ⟨_, hlog, inact, hwnd, hwnd2, ok, h, hinact, rfl, hr, rfl, rfl⟩

/-- The calls that one run of `setPixelFormat` logs. -/
theorem setPixelFormat_calls (api : Win32 W) (pf : OpenGLPixelFormat) (c : WindowedGLContext)
    (s : Sys W) :
    ∃ (b : Bool) (e : NativeCall) (rest : List NativeCall),
      newCalls s (setPixelFormat api pf c s).2.2
        = [NativeCall.wglMakeCurrent c.dc c.renderContext b, e] ++ rest
      ∧ ((extendedChooserAvailable api (makeActive api c s).2.world = true ∧
            ∃ ok fmt, e = NativeCall.wglChoosePixelFormatARB c.dc
              (referenceAttributes
                (api.isExtensionSupported "WGL_ARB_multisample" (makeActive api c s).2.world) pf)
              ok fmt ∧ (setPixelFormat.chooseFormat api pf c s).1 = fmt.getD 0)
          ∨ (extendedChooserAvailable api (makeActive api c s).2.world = false ∧
              e = NativeCall.ChoosePixelFormat c.dc (setPixelFormat.descriptor pf)
                (setPixelFormat.chooseFormat api pf c s).1))
      ∧ (((setPixelFormat.chooseFormat api pf c s).1 = 0 ∧ rest = []
            ∧ (setPixelFormat api pf c s).1 = false ∧ (setPixelFormat api pf c s).2.1 = c)
          ∨ ((setPixelFormat.chooseFormat api pf c s).1 ≠ 0 ∧
              IsRecreation c (setPixelFormat.chooseFormat api pf c s).1
                (setPixelFormat.descriptor pf) rest (setPixelFormat api pf c s).1
                (setPixelFormat api pf c s).2.1)) := by
  obtain ⟨b, e, hlog, -, he⟩ := chooseFormat_log api pf c s
  by_cases h0 : (setPixelFormat.chooseFormat api pf c s).1 = 0
  · refine ⟨b, e, [], ?_, he, Or.inl ⟨h0, rfl, ?_, ?_⟩⟩
    · rw [setPixelFormat_zero api pf c s h0]
      exact newCalls_of_log _ _ _ (by simpa using hlog)
    · rw [setPixelFormat_zero api pf c s h0]
    · rw [setPixelFormat_zero api pf c s h0]
  · obtain ⟨rest, hlog2, hrec⟩ := setPixelFormat_nonzero api pf c s h0
    refine ⟨b, e, rest, ?_, he, Or.inr ⟨h0, hrec⟩⟩
    exact newCalls_of_log _ _ _ (by rw [hlog2, hlog, List.append_assoc])

theorem chooserAttributes_recreation (c : WindowedGLContext) (format : Int)
    (pfd : PIXELFORMATDESCRIPTOR) (rest : List NativeCall) (r : Bool) (c2 : WindowedGLContext)
    (h : IsRecreation c format pfd rest r c2) : chooserAttributes rest = [] := by
  obtain ⟨inact, hwnd, hwnd2, ok, h, hinact, hrest, -, -, -⟩ := h
  subst hrest
  rcases hinact with rfl | ⟨b, rfl⟩ <;> by_cases hw : c.nativeWindow = 0 <;> cases ok <;>
    simp [chooserAttributes, hw]

/-- The attribute lists handed to `wglChoosePixelFormatARB` by one run of
`setPixelFormat`: the reference list, once, on the extended path; none on the
legacy path. -/
theorem setPixelFormat_chooserAttributes (api : Win32 W) (pf : OpenGLPixelFormat)
    (c : WindowedGLContext) (s : Sys W) :
    chooserAttributes (newCalls s (setPixelFormat api pf c s).2.2) =
      if extendedChooserAvailable api (makeActive api c s).2.world = true then
        [referenceAttributes
          (api.isExtensionSupported "WGL_ARB_multisample" (makeActive api c s).2.world) pf]
      else [] := by
  obtain ⟨b, e, rest, hcalls, he, hrest⟩ := setPixelFormat_calls api pf c s
  have hr : chooserAttributes rest = [] := by
    rcases hrest with ⟨-, rfl, -, -⟩ | ⟨-, hrec⟩
    · rfl
    · exact chooserAttributes_recreation _ _ _ _ _ _ hrec
  rw [hcalls, chooserAttributes_append, hr]
  rcases he with ⟨hx, ok, fmt, rfl, -⟩ | ⟨hx, rfl⟩ <;> simp [hx, chooserAttributes]

/-- The entry at position `2 * k` is the `k`-th attribute name. -/
theorem getElem?_two_mul_eq_attributeNames :
    ∀ (l : List Int) (k : Nat), l[2 * k]? = (attributeNames l)[k]?
  | [], k => by simp [attributeNames]
  | [a], 0 => by simp [attributeNames]
  | [a], k + 1 => by simp [attributeNames, Nat.mul_add]
  | a :: v :: rest, 0 => by simp [attributeNames]
  | a :: v :: rest, k + 1 => by
    have ih := getElem?_two_mul_eq_attributeNames rest k
    simp [attributeNames, Nat.mul_add, ih]

theorem not_name_of_not_mem (l : List Int) (x : Int) (h : x ∉ attributeNames l) (k : Nat) :
    l[2 * k]? ≠ some x := by
  rw [getElem?_two_mul_eq_attributeNames]
  intro hk
  exact h (List.getElem?_mem hk)

theorem attributeNames_reference (ms : Bool) (pf : OpenGLPixelFormat) :
    attributeNames (referenceAttributes ms pf) =
      [0x2001, 0x2010, 0x2003, 0x2011, 0x2013, 0x2014, 0x2015, 0x2017, 0x2019, 0x201B, 0x2022]
      ++ (if pf.stencilBufferBits > 0 then [0x2023] else [])
      ++ [0x201E, 0x201F, 0x2020, 0x2021]
      ++ (if ms = true ∧ pf.fullSceneAntiAliasingNumSamples > 0 then [0x2041, 0x2042] else [])
      ++ [0] := by
  by_cases h1 : pf.stencilBufferBits > 0 <;>
    by_cases h2 : pf.fullSceneAntiAliasingNumSamples > 0 <;>
    cases ms <;> simp [referenceAttributes, attributeNames, h1, h2]

theorem attributePairs_reference (ms : Bool) (pf : OpenGLPixelFormat) :
    attributePairs (referenceAttributes ms pf) =
      [(0x2001, 1), (0x2010, 1), (0x2003, 0x2027), (0x2011, 1), (0x2013, 0x202B),
        (0x2014, (pf.redBits + pf.greenBits + pf.blueBits) % 256),
        (0x2015, pf.redBits), (0x2017, pf.greenBits), (0x2019, pf.blueBits),
        (0x201B, pf.alphaBits), (0x2022, pf.depthBufferBits)]
      ++ (if pf.stencilBufferBits > 0 then [(0x2023, pf.stencilBufferBits)] else [])
      ++ [(0x201E, pf.accumulationBufferRedBits), (0x201F, pf.accumulationBufferGreenBits),
          (0x2020, pf.accumulationBufferBlueBits), (0x2021, pf.accumulationBufferAlphaBits)]
      ++ (if ms = true ∧ pf.fullSceneAntiAliasingNumSamples > 0 then
            [(0x2041, 1), (0x2042, pf.fullSceneAntiAliasingNumSamples)]
          else []) := by
  by_cases h1 : pf.stencilBufferBits > 0 <;>
    by_cases h2 : pf.fullSceneAntiAliasingNumSamples > 0 <;>
    cases ms <;> simp [referenceAttributes, attributePairs, h1, h2]

/-- Claim C1. When `setPixelFormat` is called with `stencilBufferBits == 0`, every
attribute list it hands to `wglChoosePixelFormatARB` is free of the stencil pair:
`WGL_STENCIL_BITS_ARB` stands at no name position `0, 2, 4, ...` and is the name
of no pair. On the extended path such a list is handed over, so the statement is
not empty. -/
theorem setPixelFormat_omits_zero_stencil (api : Win32 W) (pixelFormat : OpenGLPixelFormat)
    (c : WindowedGLContext) (s : Sys W) (h0 : pixelFormat.stencilBufferBits = 0) :
    (extendedChooserAvailable api (makeActive api c s).2.world = true →
      chooserAttributes (newCalls s (setPixelFormat api pixelFormat c s).2.2) ≠ []) ∧
    ∀ attributes ∈ chooserAttributes (newCalls s (setPixelFormat api pixelFormat c s).2.2),
      (∀ k : Nat, attributes[2 * k]? ≠ some WGL_STENCIL_BITS_ARB) ∧
      ∀ v : Int, (WGL_STENCIL_BITS_ARB, v) ∉ attributePairs attributes := by
  rw [setPixelFormat_chooserAttributes]
  refine ⟨fun hx => by simp [hx], fun attributes hmem => ?_⟩
  by_cases hx : extendedChooserAvailable api (makeActive api c s).2.world = true
  · simp only [hx, if_true, List.mem_singleton] at hmem
    subst hmem
    constructor
    · apply not_name_of_not_mem
      rw [attributeNames_reference]
      by_cases h2 : pixelFormat.fullSceneAntiAliasingNumSamples > 0 <;>
        cases api.isExtensionSupported "WGL_ARB_multisample" (makeActive api c s).2.world <;>
        simp [h0, h2, WGL_STENCIL_BITS_ARB]
    · intro v
      rw [attributePairs_reference]
      by_cases h2 : pixelFormat.fullSceneAntiAliasingNumSamples > 0 <;>
        cases api.isExtensionSupported "WGL_ARB_multisample" (makeActive api c s).2.world <;>
        simp [h0, h2, WGL_STENCIL_BITS_ARB]
  · simp [hx] at hmem

/-- Claim C2. In every attribute list that `setPixelFormat` hands to
`wglChoosePixelFormatARB`, the pairs `(WGL_SAMPLE_BUFFERS_ARB, 1)` and
`(WGL_SAMPLES_ARB, n)` are present if and only if the driver advertises
`WGL_ARB_multisample` and the requested sample count `n` is positive; otherwise
neither name stands at any name position. On the extended path such a list is
handed over. -/
theorem setPixelFormat_multisample_pairs (api : Win32 W) (pixelFormat : OpenGLPixelFormat)
    (c : WindowedGLContext) (s : Sys W) :
    (extendedChooserAvailable api (makeActive api c s).2.world = true →
      chooserAttributes (newCalls s (setPixelFormat api pixelFormat c s).2.2) ≠ []) ∧
    ∀ attributes ∈ chooserAttributes (newCalls s (setPixelFormat api pixelFormat c s).2.2),
      (((WGL_SAMPLE_BUFFERS_ARB, 1) ∈ attributePairs attributes ∧
          (WGL_SAMPLES_ARB, pixelFormat.fullSceneAntiAliasingNumSamples)
            ∈ attributePairs attributes)
        ↔ (api.isExtensionSupported "WGL_ARB_multisample" (makeActive api c s).2.world = true
            ∧ pixelFormat.fullSceneAntiAliasingNumSamples > 0)) ∧
      (¬ (api.isExtensionSupported "WGL_ARB_multisample" (makeActive api c s).2.world = true
            ∧ pixelFormat.fullSceneAntiAliasingNumSamples > 0) →
        ∀ k : Nat, attributes[2 * k]? ≠ some WGL_SAMPLE_BUFFERS_ARB ∧
          attributes[2 * k]? ≠ some WGL_SAMPLES_ARB) := by
  rw [setPixelFormat_chooserAttributes]
  refine ⟨fun hx => by simp [hx], fun attributes hmem => ?_⟩
  by_cases hx : extendedChooserAvailable api (makeActive api c s).2.world = true
  · simp only [hx, if_true, List.mem_singleton] at hmem
    subst hmem
    constructor
    · rw [attributePairs_reference]
      by_cases h1 : pixelFormat.stencilBufferBits > 0 <;>
        by_cases h2 : pixelFormat.fullSceneAntiAliasingNumSamples > 0 <;>
        cases api.isExtensionSupported "WGL_ARB_multisample" (makeActive api c s).2.world <;>
        simp [h1, h2, WGL_SAMPLE_BUFFERS_ARB, WGL_SAMPLES_ARB]
    · intro hno k
      constructor <;>
      · apply not_name_of_not_mem
        rw [attributeNames_reference]
        by_cases h1 : pixelFormat.stencilBufferBits > 0 <;>
          simp [h1, hno, WGL_SAMPLE_BUFFERS_ARB, WGL_SAMPLES_ARB]
  · simp [hx] at hmem

/-- Claim C10. On the extended path `setPixelFormat` calls `wglChoosePixelFormatARB`
exactly once, and the attribute list it passes is the reference list of the
specification, in that order and with one terminating `0`. -/
theorem setPixelFormat_attribute_list (api : Win32 W) (pixelFormat : OpenGLPixelFormat)
    (c : WindowedGLContext) (s : Sys W)
    (hext : extendedChooserAvailable api (makeActive api c s).2.world = true) :
    chooserAttributes (newCalls s (setPixelFormat api pixelFormat c s).2.2) =
      [referenceAttributes
        (api.isExtensionSupported "WGL_ARB_multisample" (makeActive api c s).2.world)
        pixelFormat] := by
  rw [setPixelFormat_chooserAttributes, if_pos hext]

/-- Claim C5. When `setPixelFormat` runs on an existing context (its window peer
is not null) and negotiation yields a non-zero format index, the surface
operations it performs are, in this order and nothing else: one `ReleaseDC` of
the old device context, one destruction of the old peer, one creation of a new
peer, one `GetDC`, and one `SetPixelFormat`, which is applied to the device
context that `GetDC` has just returned (the object's `dc` afterwards). This
holds for every outcome `ok` of `SetPixelFormat` and every result of
`wglCreateContext`. -/
theorem setPixelFormat_recreates_surface_once (api : Win32 W) (pixelFormat : OpenGLPixelFormat)
    (c : WindowedGLContext) (s : Sys W) (hw : c.nativeWindow ≠ 0)
    (hf : (setPixelFormat.chooseFormat api pixelFormat c s).1 ≠ 0) :
    ∃ (hwnd hwnd2 : HWND) (ok : Bool),
      surfaceCalls (newCalls s (setPixelFormat api pixelFormat c s).2.2) =
        [NativeCall.ReleaseDC hwnd c.dc,
          NativeCall.deletePeer c.nativeWindow,
          NativeCall.createNonRepaintingEmbeddedWindowsPeer c.component
            (setPixelFormat api pixelFormat c s).2.1.nativeWindow,
          NativeCall.GetDC hwnd2 (setPixelFormat api pixelFormat c s).2.1.dc,
          NativeCall.SetPixelFormat (setPixelFormat api pixelFormat c s).2.1.dc
            (setPixelFormat.chooseFormat api pixelFormat c s).1
            (setPixelFormat.descriptor pixelFormat) ok] := by
  obtain ⟨b, e, rest, hcalls, he, hrest⟩ := setPixelFormat_calls api pixelFormat c s
  rcases hrest with ⟨h0, -⟩ | ⟨-, inact, hwnd, hwnd2, ok, h, hinact, hrest, -, -, -⟩
  · exact absurd h0 hf
  · refine ⟨hwnd, hwnd2, ok, ?_⟩
    rw [hcalls, hrest]
    rcases he with ⟨-, ok2, fmt, rfl, -⟩ | ⟨-, rfl⟩ <;>
      rcases hinact with rfl | ⟨b2, rfl⟩ <;> cases ok <;>
      simp [surfaceCalls, callsTo, NativeCall.function, hw]

/-- Claim C6. When the chosen format index is `0` (on either path),
`setPixelFormat` returns `false`, leaves the object's fields as they were, and
makes no call to `wglCreateContext`, `wglDeleteContext`, `ReleaseDC`, the peer
constructor or destructor, `setVisible`, `GetDC` or `SetPixelFormat`: the only
calls are the initial `wglMakeCurrent` and the chooser. -/
theorem setPixelFormat_no_format (api : Win32 W) (pixelFormat : OpenGLPixelFormat)
    (c : WindowedGLContext) (s : Sys W)
    (h0 : (setPixelFormat.chooseFormat api pixelFormat c s).1 = 0) :
    (setPixelFormat api pixelFormat c s).1 = false ∧
    (setPixelFormat api pixelFormat c s).2.1 = c ∧
    countCalls [NativeFunction.wglCreateContext, NativeFunction.wglDeleteContext,
        NativeFunction.ReleaseDC, NativeFunction.deletePeer,
        NativeFunction.createNonRepaintingEmbeddedWindowsPeer, NativeFunction.setVisible,
        NativeFunction.GetDC, NativeFunction.SetPixelFormat]
      (newCalls s (setPixelFormat api pixelFormat c s).2.2) = 0 ∧
    ∃ (b : Bool) (e : NativeCall),
      newCalls s (setPixelFormat api pixelFormat c s).2.2 =
        [NativeCall.wglMakeCurrent c.dc c.renderContext b, e] ∧
      (e.function = NativeFunction.wglChoosePixelFormatARB ∨
        e.function = NativeFunction.ChoosePixelFormat) := by
  obtain ⟨b, e, rest, hcalls, he, hrest⟩ := setPixelFormat_calls api pixelFormat c s
  rcases hrest with ⟨-, rfl, hr, hc⟩ | ⟨hf, -⟩
  · refine ⟨hr, hc, ?_, b, e, by simpa using hcalls, ?_⟩
    · rw [hcalls]
      rcases he with ⟨-, ok2, fmt, rfl, -⟩ | ⟨-, rfl⟩ <;>
        simp [countCalls, callsTo, NativeCall.function]
    · rcases he with ⟨-, ok2, fmt, rfl, -⟩ | ⟨-, rfl⟩ <;> simp [NativeCall.function]
  · exact absurd h0 hf

/-- Claim C9. When the extended capability is absent, the format index is the
one `ChoosePixelFormat` returns for the descriptor built from the request, and
that is the only chooser call; when it is present, the only chooser call is
`wglChoosePixelFormatARB` and the index is what it stored (or the initial `0`).
In both cases the outcome of `setPixelFormat` is `applyFormat` of that index:
the same continuation, whichever path produced the index. -/
theorem setPixelFormat_legacy_fallback (api : Win32 W) (pixelFormat : OpenGLPixelFormat)
    (c : WindowedGLContext) (s : Sys W) :
    (extendedChooserAvailable api (makeActive api c s).2.world = false →
      (setPixelFormat.chooseFormat api pixelFormat c s).1 =
        (api.ChoosePixelFormat c.dc (setPixelFormat.descriptor pixelFormat)
          (makeActive api c s).2.world).1 ∧
      callsTo [NativeFunction.wglChoosePixelFormatARB, NativeFunction.ChoosePixelFormat]
          (newCalls s (setPixelFormat api pixelFormat c s).2.2) =
        [NativeCall.ChoosePixelFormat c.dc (setPixelFormat.descriptor pixelFormat)
          (setPixelFormat.chooseFormat api pixelFormat c s).1]) ∧
    (extendedChooserAvailable api (makeActive api c s).2.world = true →
      ∃ (ok : Bool) (stored : Option Int),
        (setPixelFormat.chooseFormat api pixelFormat c s).1 = stored.getD 0 ∧
        callsTo [NativeFunction.wglChoosePixelFormatARB, NativeFunction.ChoosePixelFormat]
            (newCalls s (setPixelFormat api pixelFormat c s).2.2) =
          [NativeCall.wglChoosePixelFormatARB c.dc
            (referenceAttributes
              (api.isExtensionSupported "WGL_ARB_multisample" (makeActive api c s).2.world)
              pixelFormat) ok stored]) ∧
    setPixelFormat api pixelFormat c s =
      setPixelFormat.applyFormat api c (setPixelFormat.chooseFormat api pixelFormat c s).1
        (setPixelFormat.descriptor pixelFormat)
        (setPixelFormat.chooseFormat api pixelFormat c s).2.2 := by
  obtain ⟨b, e, rest, hcalls, he, hrest⟩ := setPixelFormat_calls api pixelFormat c s
  have hrest0 :
      callsTo [NativeFunction.wglChoosePixelFormatARB, NativeFunction.ChoosePixelFormat] rest
        = [] := by
    rcases hrest with ⟨-, rfl, -, -⟩ | ⟨-, inact, hwnd, hwnd2, ok, h, hinact, rfl, -, -, -⟩
    · rfl
    · rcases hinact with rfl | ⟨b2, rfl⟩ <;> cases ok <;>
        by_cases hw : c.nativeWindow = 0 <;> simp [callsTo, NativeCall.function, hw]
  rw [hcalls, callsTo_append, hrest0]
  refine ⟨fun hx => ?_, fun hx => ?_, ?_⟩
  · rcases he with ⟨hx2, -⟩ | ⟨-, rfl⟩
    · rw [hx] at hx2
      exact absurd hx2 (by simp)
    · refine ⟨?_, ?_⟩
      · rw [chooseFormat_legacy api pixelFormat c s hx]
        rfl
      · simp [callsTo, NativeCall.function]
  · rcases he with ⟨-, ok, fmt, rfl, hfmt⟩ | ⟨hx2, -⟩
    · exact ⟨ok, fmt, hfmt, by simp [callsTo, NativeCall.function]⟩
    · rw [hx] at hx2
      exact absurd hx2 (by simp)
  · obtain ⟨-, -, -, hpfd, -⟩ := chooseFormat_log api pixelFormat c s
    rw [← hpfd]
    rfl

/-- The modelled `operator==` holds exactly for equal descriptors. -/
theorem OpenGLPixelFormat.eq_iff (a b : OpenGLPixelFormat) : a.eq b = true ↔ a = b := by
  cases a
  cases b
  simp only [OpenGLPixelFormat.eq, Bool.and_eq_true, beq_iff_eq, OpenGLPixelFormat.mk.injEq,
    and_assoc]

theorem OpenGLPixelFormat.eq_comm (a b : OpenGLPixelFormat) : a.eq b = b.eq a := by
  rw [Bool.eq_iff_iff, OpenGLPixelFormat.eq_iff, OpenGLPixelFormat.eq_iff]
  exact ⟨Eq.symm, Eq.symm⟩

theorem alreadyListed_foldl (pf : OpenGLPixelFormat) (l : List OpenGLPixelFormat) (b : Bool) :
    l.foldl (fun listed r => if pf.eq r then true else listed) b = true ↔
      b = true ∨ ∃ r ∈ l, pf.eq r = true := by
  induction l generalizing b with
  | nil => simp
  | cons r l ih =>
    rw [List.foldl_cons, ih]
    by_cases h : pf.eq r = true
    · simp [h]
    · simp [h]

/-- The flag `alreadyListed` is set exactly when some entry compares equal. -/
theorem alreadyListed_iff (pf : OpenGLPixelFormat) (results : List OpenGLPixelFormat) :
    findAlternativeOpenGLPixelFormats.alreadyListed pf results = true ↔
      ∃ r ∈ results, pf.eq r = true := by
  unfold findAlternativeOpenGLPixelFormats.alreadyListed
  rw [alreadyListed_foldl]
  simp

/-- The loop of lines 323-335 keeps the entries of `results` pairwise unequal. -/
theorem loop_distinct (api : Win32 W) (c : WindowedGLContext) :
    ∀ (n : Nat) (i : Int) (pf : OpenGLPixelFormat) (results : List OpenGLPixelFormat)
      (s : Sys W),
      results.Pairwise (fun a b => a.eq b = false ∧ b.eq a = false) →
      (findAlternativeOpenGLPixelFormats.loop api c n i pf results s).1.Pairwise
        (fun a b => a.eq b = false ∧ b.eq a = false)
  | 0, _, _, _, _, h => h
  | n + 1, i, pf, results, s, h => by
    rw [findAlternativeOpenGLPixelFormats.loop]
    apply loop_distinct api c n
    by_cases hok : (fillInPixelFormatDetails api c (i + 1) pf s).1 = true
    · by_cases hl : findAlternativeOpenGLPixelFormats.alreadyListed
          (fillInPixelFormatDetails api c (i + 1) pf s).2.1 results = true
      · rw [if_pos hok, if_pos hl]
        exact h
      · rw [if_pos hok, if_neg hl]
        rw [alreadyListed_iff] at hl
        rw [List.pairwise_append]
        refine ⟨h, List.pairwise_singleton _ _, ?_⟩
        intro a ha b hb
        rw [List.mem_singleton] at hb
        subst hb
        have hba : (fillInPixelFormatDetails api c (i + 1) pf s).2.1.eq a = false := by
          by_contra hne
          exact hl ⟨a, ha, by simpa using hne⟩
        exact ⟨by rw [OpenGLPixelFormat.eq_comm]; exact hba, hba⟩
    · rw [if_neg hok]
      exact h

/-- Claim C3. For every native environment and a `results` array that is empty on
entry, no two entries at different positions of the array left by
`findAlternativeOpenGLPixelFormats` compare equal under
`OpenGLPixelFormat::operator==`, in either order. -/
theorem findAlternativeOpenGLPixelFormats_no_duplicates (api : Win32 W) (c : WindowedGLContext)
    (pf0 : OpenGLPixelFormat) (s : Sys W) :
    (findAlternativeOpenGLPixelFormats api c pf0 [] s).1.Pairwise
      (fun a b => a.eq b = false ∧ b.eq a = false) := by
  unfold findAlternativeOpenGLPixelFormats
  exact loop_distinct api c _ _ _ _ _ List.Pairwise.nil

/-- The calls of the destructor. -/
theorem destruct_log (api : Win32 W) (c : WindowedGLContext) (s : Sys W) :
    ∃ (inact : List NativeCall) (hwnd : HWND),
      (inact = [] ∨ ∃ b, inact = [NativeCall.wglMakeCurrent 0 0 b]) ∧
      (WindowedGLContext.destruct api c s).log =
        s.log ++ (inact
          ++ (if c.renderContext = 0 then [] else [NativeCall.wglDeleteContext c.renderContext])
          ++ [NativeCall.ReleaseDC hwnd c.dc]
          ++ (if c.nativeWindow = 0 then [] else [NativeCall.deletePeer c.nativeWindow])) := by
  obtain ⟨inact, hinact, hlog⟩ := makeInactive_log api c s
  generalize hs1 : (makeInactive api c s).2 = s1 at hlog
  by_cases hrc : c.renderContext = 0
  · have hd : deleteContext api c s = (c, s1) := by
      simp [deleteContext, hrc, hs1]
    refine ⟨inact, api.getNativeHandle c.nativeWindow s1.world, hinact, ?_⟩
    unfold WindowedGLContext.destruct
    rw [hd]
    simp only [(assign_null api c _).2, Sys.ReleaseDC, hlog, hrc, if_true]
    simp
  · have hd : deleteContext api c s =
        ({ c with renderContext := 0 }, Sys.wglDeleteContext api c.renderContext s1) := by
      simp [deleteContext, hrc, hs1]
    refine ⟨inact, api.getNativeHandle c.nativeWindow
      (Sys.wglDeleteContext api c.renderContext s1).world, hinact, ?_⟩
    unfold WindowedGLContext.destruct
    rw [hd]
    simp only [(assign_null api _ _).2, Sys.ReleaseDC, Sys.wglDeleteContext, hlog, hrc, if_false]
    simp

/-- Claim C8. `createContext` returns a non-null object if and only if the
constructed `WindowedGLContext` holds a non-null render context handle when its
constructor returns. A returned object is the constructed one, untouched.
When the handle is null, `createContext` returns `nullptr` and runs the
destructor on the constructed object: an optional deactivation, then
`ReleaseDC` on its device context, then the destruction of its window peer. -/
theorem createContext_nonnull_iff (api : Win32 W) (comp : OpenGLComponent) (s : Sys W) :
    ((OpenGLComponent.createContext api comp s).1.isSome = true ↔
      (OpenGLComponent.createContext.newContext api comp s).1.renderContext ≠ 0) ∧
    (∀ c, (OpenGLComponent.createContext api comp s).1 = some c →
      c = (OpenGLComponent.createContext.newContext api comp s).1 ∧ c.renderContext ≠ 0 ∧
      (OpenGLComponent.createContext api comp s).2 =
        (OpenGLComponent.createContext.newContext api comp s).2) ∧
    ((OpenGLComponent.createContext.newContext api comp s).1.renderContext = 0 →
      (OpenGLComponent.createContext api comp s).1 = none ∧
      (OpenGLComponent.createContext api comp s).2 =
        WindowedGLContext.destruct api (OpenGLComponent.createContext.newContext api comp s).1
          (OpenGLComponent.createContext.newContext api comp s).2 ∧
      ∃ (inact : List NativeCall) (hwnd : HWND),
        (inact = [] ∨ ∃ b, inact = [NativeCall.wglMakeCurrent 0 0 b]) ∧
        newCalls (OpenGLComponent.createContext.newContext api comp s).2
            (OpenGLComponent.createContext api comp s).2 =
          inact ++ [NativeCall.ReleaseDC hwnd
              (OpenGLComponent.createContext.newContext api comp s).1.dc]
            ++ (if (OpenGLComponent.createContext.newContext api comp s).1.nativeWindow = 0
                then []
                else [NativeCall.deletePeer
                  (OpenGLComponent.createContext.newContext api comp s).1.nativeWindow])) := by
  generalize hK : OpenGLComponent.createContext.newContext api comp s = K
  have hcc : OpenGLComponent.createContext api comp s =
      if K.1.renderContext != 0 then (some K.1, K.2)
      else (none, WindowedGLContext.destruct api K.1 K.2) := by
    simp only [OpenGLComponent.createContext, hK]
  rw [hcc]
  by_cases hrc : K.1.renderContext = 0
  · simp only [hrc, bne_self_eq_false, Bool.false_eq_true, if_false]
    refine ⟨by simp, by simp, fun _ => ⟨trivial, trivial, ?_⟩⟩
    obtain ⟨inact, hwnd, hinact, hlog⟩ := destruct_log api K.1 K.2
    refine ⟨inact, hwnd, hinact, ?_⟩
    apply newCalls_of_log
    rw [hlog]
    simp [hrc]
  · have hb : (K.1.renderContext != 0) = true := by simpa using hrc
    simp only [hb, if_true]
    refine ⟨by simp [hrc], ?_, fun h => absurd h hrc⟩
    intro c hc
    simp only [Option.some.injEq] at hc
    subst hc
    exact ⟨rfl, hrc, trivial⟩

theorem fillInPixelFormatDetails_attributes_take (ms : Bool) :
    (fillInPixelFormatDetails.attributes ms).stored.take 5 =
      [WGL_DRAW_TO_WINDOW_ARB, WGL_SUPPORT_OPENGL_ARB, WGL_ACCELERATION_ARB,
        WGL_DOUBLE_BUFFER_ARB, WGL_PIXEL_TYPE_ARB] := by
  cases ms <;> simp [fillInPixelFormatDetails.attributes, IntArray.store]

theorem take_five_of_getD (l : List Int) (a b c d e : Int) (hl : 5 ≤ l.length)
    (h0 : l.getD 0 0 = a) (h1 : l.getD 1 0 = b) (h2 : l.getD 2 0 = c) (h3 : l.getD 3 0 = d)
    (h4 : l.getD 4 0 = e) : l.take 5 = [a, b, c, d, e] := by
  match l, hl with
  | x0 :: x1 :: x2 :: x3 :: x4 :: rest, _ =>
    simp at h0 h1 h2 h3 h4
    simp [h0, h1, h2, h3, h4]

theorem values_length (n : Nat) (written : List Int) :
    5 ≤ (fillInPixelFormatDetails.values n written).length := by
  simp only [fillInPixelFormatDetails.values, List.length_append, List.length_replicate]
  omega

/-- On the extended path `fillInPixelFormatDetails` returns `true` only for a
format whose queried values pass all five validity checks: draw-to-window,
OpenGL support, full acceleration, double buffering and RGBA pixel type. -/
theorem fillInPixelFormatDetails_extended_valid (api : Win32 W) (c : WindowedGLContext)
    (pixelFormatIndex : Int) (result : OpenGLPixelFormat) (s : Sys W)
    (hext : (api.isExtensionSupported "WGL_ARB_pixel_format" s.world
      && api.wglGetProcAddress "wglGetPixelFormatAttribivARB" s.world) = true)
    (hok : (fillInPixelFormatDetails api c pixelFormatIndex result s).1 = true) :
    ∃ (attributes values : List Int),
      newCalls s (fillInPixelFormatDetails api c pixelFormatIndex result s).2.2 =
        [NativeCall.wglGetPixelFormatAttribivARB c.dc pixelFormatIndex attributes true values] ∧
      attributes.take 5 = [WGL_DRAW_TO_WINDOW_ARB, WGL_SUPPORT_OPENGL_ARB, WGL_ACCELERATION_ARB,
        WGL_DOUBLE_BUFFER_ARB, WGL_PIXEL_TYPE_ARB] ∧
      (fillInPixelFormatDetails.values attributes.length values).take 5 =
        [GL_TRUE, GL_TRUE, WGL_FULL_ACCELERATION_ARB, GL_TRUE, WGL_TYPE_RGBA_ARB] := by
  refine ⟨(fillInPixelFormatDetails.attributes
      (api.isExtensionSupported "WGL_ARB_multisample" s.world)).stored,
    (api.wglGetPixelFormatAttribivARB c.dc pixelFormatIndex
      (fillInPixelFormatDetails.attributes
        (api.isExtensionSupported "WGL_ARB_multisample" s.world)).stored s.world).1.2,
    ?_, fillInPixelFormatDetails_attributes_take _, ?_⟩
  · apply newCalls_of_log
    simp only [fillInPixelFormatDetails, hext, if_true, Sys.wglGetPixelFormatAttribivARB] at hok ⊢
    by_cases hq : (api.wglGetPixelFormatAttribivARB c.dc pixelFormatIndex
      (fillInPixelFormatDetails.attributes
        (api.isExtensionSupported "WGL_ARB_multisample" s.world)).stored s.world).1.1 = true
    · simp [hq]
    · simp [hq] at hok
  · simp only [fillInPixelFormatDetails, hext, if_true, Sys.wglGetPixelFormatAttribivARB] at hok
    by_cases hq : (api.wglGetPixelFormatAttribivARB c.dc pixelFormatIndex
      (fillInPixelFormatDetails.attributes
        (api.isExtensionSupported "WGL_ARB_multisample" s.world)).stored s.world).1.1 = true
    · simp only [hq, if_true, Bool.and_eq_true, beq_iff_eq] at hok
      obtain ⟨h4, h3, h2, h1, h0⟩ := hok
      exact take_five_of_getD _ _ _ _ _ _ (values_length _ _) h0 h1 h2 h3 h4
    · simp [hq] at hok

/-- Claim C4, at a failing input. On the legacy path (a driver without
`WGL_ARB_pixel_format`) `fillInPixelFormatDetails` returns `true` for every
format that `DescribePixelFormat` can describe, without looking at its flags
or pixel type. For a driver whose only format is single-buffered and
colour-indexed, `findAlternativeOpenGLPixelFormats` makes exactly the two
`DescribePixelFormat` calls shown and lists the descriptor resolved from that
format, although the format is neither double-buffered nor RGBA. -/
theorem findAlternativeOpenGLPixelFormats_legacy_lists_invalid_format :
    (simApi simLegacyDriver).isExtensionSupported "WGL_ARB_pixel_format" simReady.world = false ∧
    simLegacyDriver.format 1 = some (simFormatSingleBuffered, 0) ∧
    simFormatSingleBuffered.dwFlags &&& PFD_DOUBLEBUFFER = 0 ∧
    simFormatSingleBuffered.iPixelType ≠ PFD_TYPE_RGBA ∧
    (fillInPixelFormatDetails (simApi simLegacyDriver) simContext 1 simRequest simReady).1 = true ∧
    (findAlternativeOpenGLPixelFormats (simApi simLegacyDriver) simContext simRequest []
        simReady).2.log =
      [NativeCall.DescribePixelFormat 2 0 0 1 {},
        NativeCall.DescribePixelFormat 2 1 40 1 simFormatSingleBuffered] ∧
    (findAlternativeOpenGLPixelFormats (simApi simLegacyDriver) simContext simRequest []
        simReady).1 =
      [{ redBits := 8, greenBits := 8, blueBits := 8, alphaBits := 0, depthBufferBits := 24
         stencilBufferBits := 0
         accumulationBufferRedBits := 0, accumulationBufferGreenBits := 0
         accumulationBufferBlueBits := 0, accumulationBufferAlphaBits := 0
         fullSceneAntiAliasingNumSamples := 0 }] := by
  refine ⟨rfl, rfl, by decide, by decide, rfl, rfl, rfl⟩

/-- The enumeration on the extended path, run on the simulated driver with four
formats: the single-buffered format 2 is skipped, format 4 repeats format 1
and is dropped, formats 1 and 3 are listed. -/
theorem findAlternativeOpenGLPixelFormats_extended_example :
    ((findAlternativeOpenGLPixelFormats (simApi simExtendedDriver) simContext simRequest []
        simReady).1).map (fun pf => (pf.depthBufferBits, pf.fullSceneAntiAliasingNumSamples))
      = [(16, 0), (16, 4)] := by
  rfl

/-- Claim C1 at a concrete input: the simulated extended driver and a request
without stencil buffer. -/
theorem setPixelFormat_omits_zero_stencil_witness :
    simRequest.stencilBufferBits = 0 ∧
    chooserAttributes
      (newCalls simReady (setPixelFormat (simApi simExtendedDriver) simRequest simContext
        simReady).2.2) ≠ [] ∧
    ∀ attributes ∈ chooserAttributes
        (newCalls simReady (setPixelFormat (simApi simExtendedDriver) simRequest simContext
          simReady).2.2),
      (∀ k : Nat, attributes[2 * k]? ≠ some WGL_STENCIL_BITS_ARB) ∧
      ∀ v : Int, (WGL_STENCIL_BITS_ARB, v) ∉ attributePairs attributes :=
  ⟨rfl,
    (setPixelFormat_omits_zero_stencil (simApi simExtendedDriver) simRequest simContext simReady
      rfl).1 (by decide),
    (setPixelFormat_omits_zero_stencil (simApi simExtendedDriver) simRequest simContext simReady
      rfl).2⟩

set_option maxRecDepth 4096 in
/-- Claim C10 at a concrete input: the list that the simulated extended driver
receives for `simRequest`. -/
theorem setPixelFormat_attribute_list_witness :
    chooserAttributes
      (newCalls simReady (setPixelFormat (simApi simExtendedDriver) simRequest simContext
        simReady).2.2) =
      [[0x2001, 1, 0x2010, 1, 0x2003, 0x2027, 0x2011, 1, 0x2013, 0x202B, 0x2014, 24,
        0x2015, 8, 0x2017, 8, 0x2019, 8, 0x201B, 8, 0x2022, 16,
        0x201E, 0, 0x201F, 0, 0x2020, 0, 0x2021, 0, 0]] :=
  (setPixelFormat_attribute_list (simApi simExtendedDriver) simRequest simContext simReady
    (by decide)).trans (by decide)

/-- Claim C5 at a concrete input: the surface operations of `setPixelFormat` on
the simulated extended driver. -/
theorem setPixelFormat_recreates_surface_once_witness :
    ∃ (hwnd hwnd2 : HWND) (ok : Bool),
      surfaceCalls
          (newCalls simReady (setPixelFormat (simApi simExtendedDriver) simRequest simContext
            simReady).2.2) =
        [NativeCall.ReleaseDC hwnd simContext.dc,
          NativeCall.deletePeer simContext.nativeWindow,
          NativeCall.createNonRepaintingEmbeddedWindowsPeer simContext.component
            (setPixelFormat (simApi simExtendedDriver) simRequest simContext
              simReady).2.1.nativeWindow,
          NativeCall.GetDC hwnd2
            (setPixelFormat (simApi simExtendedDriver) simRequest simContext simReady).2.1.dc,
          NativeCall.SetPixelFormat
            (setPixelFormat (simApi simExtendedDriver) simRequest simContext simReady).2.1.dc
            (setPixelFormat.chooseFormat (simApi simExtendedDriver) simRequest simContext
              simReady).1
            (setPixelFormat.descriptor simRequest) ok] :=
  setPixelFormat_recreates_surface_once (simApi simExtendedDriver) simRequest simContext simReady
    (by decide) (by decide)

/-- Claim C6 at a concrete input: a driver whose chooser returns `0`. -/
theorem setPixelFormat_no_format_witness :
    (setPixelFormat.chooseFormat (simApi simNoFormatDriver) simRequest simContext simReady).1 = 0 ∧
    (setPixelFormat (simApi simNoFormatDriver) simRequest simContext simReady).1 = false ∧
    (setPixelFormat (simApi simNoFormatDriver) simRequest simContext simReady).2.1 = simContext :=
  ⟨rfl,
    (setPixelFormat_no_format (simApi simNoFormatDriver) simRequest simContext simReady rfl).1,
    (setPixelFormat_no_format (simApi simNoFormatDriver) simRequest simContext simReady
      rfl).2.1⟩

/-- The construction on a driver whose `wglCreateContext` fails, run on the
simulated world: `createContext` returns `nullptr`, and the last calls are the
destructor's `ReleaseDC` and the destruction of the window peer. -/
theorem createContext_failure_example :
    (OpenGLComponent.createContext (simApi simNoContextDriver)
        { component := 1, contextToShareListsWith := none, preferredPixelFormat := simRequest }
        simStart).1 = none ∧
    ((OpenGLComponent.createContext (simApi simNoContextDriver)
        { component := 1, contextToShareListsWith := none, preferredPixelFormat := simRequest }
        simStart).2.log).drop 19 =
      [NativeCall.ReleaseDC 3 4, NativeCall.deletePeer 3] := by
  constructor <;> rfl

/-- The construction on the simulated extended driver: `createContext` returns
the object, whose render context is the one created last. -/
theorem createContext_success_example :
    (OpenGLComponent.createContext (simApi simExtendedDriver)
        { component := 1, contextToShareListsWith := none, preferredPixelFormat := simRequest }
        simStart).1 = some { renderContext := 6, nativeWindow := 4, component := 1, dc := 5 } := by
  rfl

/-- `makeInactive` on a context that is not current. -/
theorem makeInactive_of_not_active (api : Win32 W) (c : WindowedGLContext) (s : Sys W)
    (h : isActive api c s = false) : makeInactive api c s = (true, s) := by
  simp [makeInactive, h]

/-- `makeInactive` on the current context. -/
theorem makeInactive_of_active (api : Win32 W) (c : WindowedGLContext) (s : Sys W)
    (h : isActive api c s = true) :
    makeInactive api c s =
      ((api.wglMakeCurrent 0 0 s.world).1,
        ⟨(api.wglMakeCurrent 0 0 s.world).2,
          s.log ++ [NativeCall.wglMakeCurrent 0 0 (api.wglMakeCurrent 0 0 s.world).1]⟩) := by
  simp [makeInactive, h, Sys.wglMakeCurrent]

/-- Claim C16. If the context is not the thread's current context, `makeInactive`
returns `true`, calls nothing and leaves the world, and with it the thread's
current context, as it was. If it is the current context, `makeInactive` makes
exactly one call, `wglMakeCurrent (0, 0)`, and returns whether that call
succeeded. -/
theorem makeInactive_frame (api : Win32 W) (c : WindowedGLContext) (s : Sys W) :
    (isActive api c s = false →
      makeInactive api c s = (true, s) ∧
      countCalls [NativeFunction.wglMakeCurrent] (newCalls s (makeInactive api c s).2) = 0 ∧
      api.wglGetCurrentContext (makeInactive api c s).2.world
        = api.wglGetCurrentContext s.world) ∧
    (isActive api c s = true →
      (makeInactive api c s).1 = (api.wglMakeCurrent 0 0 s.world).1 ∧
      (makeInactive api c s).2.world = (api.wglMakeCurrent 0 0 s.world).2 ∧
      newCalls s (makeInactive api c s).2 =
        [NativeCall.wglMakeCurrent 0 0 (api.wglMakeCurrent 0 0 s.world).1]) := by
  constructor
  · intro h
    rw [makeInactive_of_not_active api c s h]
    simp [newCalls, countCalls, callsTo]
  · intro h
    rw [makeInactive_of_active api c s h]
    simp [newCalls]

/-- The calls of the destructor, with the deactivation spelled out. -/
theorem destruct_trace (api : Win32 W) (c : WindowedGLContext) (s : Sys W) :
    ∃ hwnd : HWND,
      (WindowedGLContext.destruct api c s).log =
        s.log ++ ((if isActive api c s = true then
            [NativeCall.wglMakeCurrent 0 0 (api.wglMakeCurrent 0 0 s.world).1]
          else [])
          ++ (if c.renderContext = 0 then [] else [NativeCall.wglDeleteContext c.renderContext])
          ++ [NativeCall.ReleaseDC hwnd c.dc]
          ++ (if c.nativeWindow = 0 then [] else [NativeCall.deletePeer c.nativeWindow])) := by
  have hlog : (makeInactive api c s).2.log = s.log ++
      (if isActive api c s = true then
        [NativeCall.wglMakeCurrent 0 0 (api.wglMakeCurrent 0 0 s.world).1]
      else []) := by
    by_cases ha : isActive api c s = true
    · rw [makeInactive_of_active api c s ha]
      simp [ha]
    · rw [makeInactive_of_not_active api c s (by simpa using ha)]
      simp [ha]
  generalize hs1 : (makeInactive api c s).2 = s1 at hlog
  by_cases hrc : c.renderContext = 0
  · have hd : deleteContext api c s = (c, s1) := by
      simp [deleteContext, hrc, hs1]
    refine ⟨api.getNativeHandle c.nativeWindow s1.world, ?_⟩
    unfold WindowedGLContext.destruct
    rw [hd]
    simp only [(assign_null api c _).2, Sys.ReleaseDC, hlog, hrc, if_true]
    simp
  · have hd : deleteContext api c s =
        ({ c with renderContext := 0 }, Sys.wglDeleteContext api c.renderContext s1) := by
      simp [deleteContext, hrc, hs1]
    refine ⟨api.getNativeHandle c.nativeWindow
      (Sys.wglDeleteContext api c.renderContext s1).world, ?_⟩
    unfold WindowedGLContext.destruct
    rw [hd]
    simp only [(assign_null api _ _).2, Sys.ReleaseDC, Sys.wglDeleteContext, hlog, hrc, if_false]
    simp

/-- Claim C12. For an object with a window peer, the destructor makes these calls,
in this order and nothing else: `wglMakeCurrent (0, 0)` if and only if the
context is current, `wglDeleteContext` on the render context if and only if the
handle is non-null, `ReleaseDC` on the device context, and the destruction of the
window peer. After `deleteContext` the handle is `0`. -/
theorem destructor_releases_in_reverse_order (api : Win32 W) (c : WindowedGLContext) (s : Sys W)
    (hw : c.nativeWindow ≠ 0) :
    (deleteContext api c s).1.renderContext = 0 ∧
    ∃ hwnd : HWND,
      newCalls s (WindowedGLContext.destruct api c s) =
        (if isActive api c s = true then
            [NativeCall.wglMakeCurrent 0 0 (api.wglMakeCurrent 0 0 s.world).1]
          else [])
        ++ (if c.renderContext = 0 then [] else [NativeCall.wglDeleteContext c.renderContext])
        ++ [NativeCall.ReleaseDC hwnd c.dc, NativeCall.deletePeer c.nativeWindow] := by
  constructor
  · by_cases hrc : c.renderContext = 0 <;> simp [deleteContext, hrc]
  · obtain ⟨hwnd, hlog⟩ := destruct_trace api c s
    refine ⟨hwnd, ?_⟩
    rw [newCalls_of_log _ _ _ hlog]
    simp [hw]

/-- Two contexts that both report themselves active hold the same handle. -/
theorem isActive_same_handle (api : Win32 W) (c1 c2 : WindowedGLContext) (s : Sys W)
    (h1 : isActive api c1 s = true) (h2 : isActive api c2 s = true) :
    c1.renderContext = c2.renderContext := by
  simp only [isActive, beq_iff_eq] at h1 h2
  rw [← h1, ← h2]

/-- Claim C13 at a failing input. On a thread without a current context, two
distinct objects whose render context handle is null both report themselves
active; and the object left by `deleteContext` on the current context, whose
handle is null, reports itself active. -/
theorem isActive_true_for_null_contexts :
    (simApi simExtendedDriver).wglGetCurrentContext simStart.world = 0 ∧
    (⟨0, 1, 1, 2⟩ : WindowedGLContext) ≠ ⟨0, 3, 2, 4⟩ ∧
    isActive (simApi simExtendedDriver) ⟨0, 1, 1, 2⟩ simStart = true ∧
    isActive (simApi simExtendedDriver) ⟨0, 3, 2, 4⟩ simStart = true ∧
    (deleteContext (simApi simExtendedDriver) simContext simReady).1.renderContext = 0 ∧
    isActive (simApi simExtendedDriver)
      (deleteContext (simApi simExtendedDriver) simContext simReady).1
      (deleteContext (simApi simExtendedDriver) simContext simReady).2 = true := by
  refine ⟨rfl, by decide, rfl, rfl, rfl, rfl⟩

/-- Lines 247-267 for a non-zero index, with every logged result tied to the
native environment: `w0` is the world in which `SetPixelFormat` is called. -/
theorem applyFormat_nonzero_exact (api : Win32 W) (c : WindowedGLContext) (format : Int)
    (pfd : PIXELFORMATDESCRIPTOR) (s : Sys W) (hf : format ≠ 0) :
    ∃ (hwnd hwnd2 : HWND) (p : Peer) (d : HDC) (w0 : W),
      (setPixelFormat.applyFormat api c format pfd s).2.2.log =
        s.log ++ ((if isActive api c s = true then
              [NativeCall.wglMakeCurrent 0 0 (api.wglMakeCurrent 0 0 s.world).1]
            else [])
          ++ [NativeCall.ReleaseDC hwnd c.dc]
          ++ (if c.nativeWindow = 0 then [] else [NativeCall.deletePeer c.nativeWindow])
          ++ [NativeCall.createNonRepaintingEmbeddedWindowsPeer c.component p,
              NativeCall.setVisible p true, NativeCall.GetDC hwnd2 d,
              NativeCall.SetPixelFormat d format pfd (api.SetPixelFormat d format pfd w0).1]
          ++ (if (api.SetPixelFormat d format pfd w0).1 = true then
                [NativeCall.wglDeleteContext c.renderContext,
                  NativeCall.wglCreateContext d
                    (api.wglCreateContext d (api.wglDeleteContext c.renderContext
                      (api.SetPixelFormat d format pfd w0).2)).1]
              else [])) ∧
      (setPixelFormat.applyFormat api c format pfd s).1 =
        ((api.SetPixelFormat d format pfd w0).1 &&
          (api.wglCreateContext d (api.wglDeleteContext c.renderContext
            (api.SetPixelFormat d format pfd w0).2)).1 != 0) ∧
      (setPixelFormat.applyFormat api c format pfd s).2.1 =
        { renderContext :=
            if (api.SetPixelFormat d format pfd w0).1 = true then
              (api.wglCreateContext d (api.wglDeleteContext c.renderContext
                (api.SetPixelFormat d format pfd w0).2)).1
            else c.renderContext
          nativeWindow := p
          component := c.component
          dc := d } ∧
      (setPixelFormat.applyFormat api c format pfd s).2.2.world =
        (if (api.SetPixelFormat d format pfd w0).1 = true then
          (api.wglCreateContext d (api.wglDeleteContext c.renderContext
            (api.SetPixelFormat d format pfd w0).2)).2
        else (api.SetPixelFormat d format pfd w0).2) := by
  have hlog1 : (makeInactive api c s).2.log = s.log ++
      (if isActive api c s = true then
        [NativeCall.wglMakeCurrent 0 0 (api.wglMakeCurrent 0 0 s.world).1]
      else []) := by
    by_cases ha : isActive api c s = true
    · rw [makeInactive_of_active api c s ha]
      simp [ha]
    · rw [makeInactive_of_not_active api c s (by simpa using ha)]
      simp [ha]
  generalize hs1 : (makeInactive api c s).2 = s1 at hlog1
  obtain ⟨ha1, ha2⟩ := assign_null api c
    (Sys.ReleaseDC api (api.getNativeHandle c.nativeWindow s1.world) c.dc s1)
  generalize hA : nativeWindow.assign api c 0
    (Sys.ReleaseDC api (api.getNativeHandle c.nativeWindow s1.world) c.dc s1) = A at ha1 ha2
  obtain ⟨hn1, hn2, hwnd2, hn3⟩ := createNativeWindow_fresh api A.1 A.2 (by rw [ha1])
  generalize hN : createNativeWindow api A.1 A.2 = N at hn1 hn2 hn3
  refine ⟨api.getNativeHandle c.nativeWindow s1.world, hwnd2, N.1.nativeWindow, N.1.dc,
    N.2.world, ?_, ?_, ?_, ?_⟩
  all_goals
    simp only [setPixelFormat.applyFormat, bne_iff_ne, ne_eq, hf, not_false_eq_true, if_true,
      hs1, hA, hN, Sys.SetPixelFormat]
    by_cases hok : (api.SetPixelFormat N.1.dc format pfd N.2.world).1 = true
    · simp [hok, Sys.wglDeleteContext, Sys.wglCreateContext, hn1, hn2, hn3, ha1, ha2, hlog1,
        Sys.ReleaseDC]
    · simp [hok, Sys.wglDeleteContext, Sys.wglCreateContext, hn1, hn2, hn3, ha1, ha2, hlog1,
        Sys.ReleaseDC]
      try
        rw [ha1] at hn1 hn2
        obtain ⟨⟨rc, nw, comp, d⟩, n2⟩ := N
        simp only at hn1 hn2
        simp [hn1, hn2]

/-- The calls of `chooseFormat`, with the result of the activation made explicit. -/
theorem chooseFormat_log_active (api : Win32 W) (pf : OpenGLPixelFormat)
    (c : WindowedGLContext) (s : Sys W) :
    ∃ (e : NativeCall),
      (setPixelFormat.chooseFormat api pf c s).2.2.log
        = s.log ++ [NativeCall.wglMakeCurrent c.dc c.renderContext (makeActive api c s).1, e]
      ∧ (setPixelFormat.chooseFormat api pf c s).2.1 = setPixelFormat.descriptor pf
      ∧ ((extendedChooserAvailable api (makeActive api c s).2.world = true ∧
            ∃ ok fmt, e = NativeCall.wglChoosePixelFormatARB c.dc
              (referenceAttributes
                (api.isExtensionSupported "WGL_ARB_multisample" (makeActive api c s).2.world) pf)
              ok fmt ∧ (setPixelFormat.chooseFormat api pf c s).1 = fmt.getD 0)
          ∨ (extendedChooserAvailable api (makeActive api c s).2.world = false ∧
              e = NativeCall.ChoosePixelFormat c.dc (setPixelFormat.descriptor pf)
                (setPixelFormat.chooseFormat api pf c s).1)) := by
  by_cases h : extendedChooserAvailable api (makeActive api c s).2.world = true
  · rw [chooseFormat_extended api pf c s h]
    refine ⟨_, ?_, rfl,
      Or.inl ⟨h, (Sys.wglChoosePixelFormatARB api c.dc
          (referenceAttributes
            (api.isExtensionSupported "WGL_ARB_multisample" (makeActive api c s).2.world) pf)
          (makeActive api c s).2).1.1, _, rfl, rfl⟩⟩
    simp [Sys.wglChoosePixelFormatARB, makeActive, Sys.wglMakeCurrent]
  · simp only [Bool.not_eq_true] at h
    rw [chooseFormat_legacy api pf c s h]
    refine ⟨_, ?_, rfl, Or.inr ⟨h, rfl⟩⟩
    simp [Sys.ChoosePixelFormat, makeActive, Sys.wglMakeCurrent]

/-- The calls, result and object of one run of `setPixelFormat` that chose a
non-zero index, with every logged result tied to the native environment. -/
theorem setPixelFormat_nonzero_exact (api : Win32 W) (pf : OpenGLPixelFormat)
    (c : WindowedGLContext) (s : Sys W)
    (hf : (setPixelFormat.chooseFormat api pf c s).1 ≠ 0) :
    ∃ (e : NativeCall) (hwnd hwnd2 : HWND) (w0 : W),
      ((∃ ok fmt, e = NativeCall.wglChoosePixelFormatARB c.dc
            (referenceAttributes
              (api.isExtensionSupported "WGL_ARB_multisample" (makeActive api c s).2.world) pf)
            ok fmt ∧ (setPixelFormat.chooseFormat api pf c s).1 = fmt.getD 0)
        ∨ e = NativeCall.ChoosePixelFormat c.dc (setPixelFormat.descriptor pf)
              (setPixelFormat.chooseFormat api pf c s).1) ∧
      newCalls s (setPixelFormat api pf c s).2.2 =
        [NativeCall.wglMakeCurrent c.dc c.renderContext (makeActive api c s).1, e]
          ++ (if isActive api c (setPixelFormat.chooseFormat api pf c s).2.2 = true then
                [NativeCall.wglMakeCurrent 0 0
                  (api.wglMakeCurrent 0 0 (setPixelFormat.chooseFormat api pf c s).2.2.world).1]
              else [])
          ++ [NativeCall.ReleaseDC hwnd c.dc]
          ++ (if c.nativeWindow = 0 then [] else [NativeCall.deletePeer c.nativeWindow])
          ++ [NativeCall.createNonRepaintingEmbeddedWindowsPeer c.component
                (setPixelFormat api pf c s).2.1.nativeWindow,
              NativeCall.setVisible (setPixelFormat api pf c s).2.1.nativeWindow true,
              NativeCall.GetDC hwnd2 (setPixelFormat api pf c s).2.1.dc,
              NativeCall.SetPixelFormat (setPixelFormat api pf c s).2.1.dc
                (setPixelFormat.chooseFormat api pf c s).1 (setPixelFormat.descriptor pf)
                (api.SetPixelFormat (setPixelFormat api pf c s).2.1.dc
                  (setPixelFormat.chooseFormat api pf c s).1 (setPixelFormat.descriptor pf)
                  w0).1]
          ++ (if (api.SetPixelFormat (setPixelFormat api pf c s).2.1.dc
                  (setPixelFormat.chooseFormat api pf c s).1 (setPixelFormat.descriptor pf)
                  w0).1 = true then
                [NativeCall.wglDeleteContext c.renderContext,
                  NativeCall.wglCreateContext (setPixelFormat api pf c s).2.1.dc
                    (api.wglCreateContext (setPixelFormat api pf c s).2.1.dc
                      (api.wglDeleteContext c.renderContext
                        (api.SetPixelFormat (setPixelFormat api pf c s).2.1.dc
                          (setPixelFormat.chooseFormat api pf c s).1
                          (setPixelFormat.descriptor pf) w0).2)).1]
              else []) ∧
      (setPixelFormat api pf c s).1 =
        ((api.SetPixelFormat (setPixelFormat api pf c s).2.1.dc
            (setPixelFormat.chooseFormat api pf c s).1 (setPixelFormat.descriptor pf) w0).1 &&
          (api.wglCreateContext (setPixelFormat api pf c s).2.1.dc
            (api.wglDeleteContext c.renderContext
              (api.SetPixelFormat (setPixelFormat api pf c s).2.1.dc
                (setPixelFormat.chooseFormat api pf c s).1
                (setPixelFormat.descriptor pf) w0).2)).1 != 0) ∧
      (setPixelFormat api pf c s).2.1.renderContext =
        (if (api.SetPixelFormat (setPixelFormat api pf c s).2.1.dc
              (setPixelFormat.chooseFormat api pf c s).1 (setPixelFormat.descriptor pf)
              w0).1 = true then
          (api.wglCreateContext (setPixelFormat api pf c s).2.1.dc
            (api.wglDeleteContext c.renderContext
              (api.SetPixelFormat (setPixelFormat api pf c s).2.1.dc
                (setPixelFormat.chooseFormat api pf c s).1
                (setPixelFormat.descriptor pf) w0).2)).1
        else c.renderContext) ∧
      (setPixelFormat api pf c s).2.2.world =
        (if (api.SetPixelFormat (setPixelFormat api pf c s).2.1.dc
              (setPixelFormat.chooseFormat api pf c s).1 (setPixelFormat.descriptor pf)
              w0).1 = true then
          (api.wglCreateContext (setPixelFormat api pf c s).2.1.dc
            (api.wglDeleteContext c.renderContext
              (api.SetPixelFormat (setPixelFormat api pf c s).2.1.dc
                (setPixelFormat.chooseFormat api pf c s).1
                (setPixelFormat.descriptor pf) w0).2)).2
        else
          (api.SetPixelFormat (setPixelFormat api pf c s).2.1.dc
            (setPixelFormat.chooseFormat api pf c s).1 (setPixelFormat.descriptor pf)
            w0).2) := by
  obtain ⟨e, hlog, hpfd, he⟩ := chooseFormat_log_active api pf c s
  obtain ⟨hwnd, hwnd2, p, d, w0, hl, hr, hc, hwd⟩ :=
    applyFormat_nonzero_exact api c _ (setPixelFormat.chooseFormat api pf c s).2.1
      (setPixelFormat.chooseFormat api pf c s).2.2 hf
  have hset : setPixelFormat api pf c s =
      setPixelFormat.applyFormat api c (setPixelFormat.chooseFormat api pf c s).1
        (setPixelFormat.chooseFormat api pf c s).2.1
        (setPixelFormat.chooseFormat api pf c s).2.2 := rfl
  rw [hpfd] at hl hr hc hwd hset
  have hdc : (setPixelFormat api pf c s).2.1.dc = d := by rw [hset, hc]
  have hnw : (setPixelFormat api pf c s).2.1.nativeWindow = p := by rw [hset, hc]
  refine ⟨e, hwnd, hwnd2, w0, ?_, ?_, ?_, ?_, ?_⟩
  · rcases he with ⟨-, ok, fmt, h1, h2⟩ | ⟨-, h1⟩
    · exact Or.inl ⟨ok, fmt, h1, h2⟩
    · exact Or.inr h1
  · rw [hdc, hnw]
    apply newCalls_of_log
    rw [hset, hl, hlog]
    simp only [List.append_assoc]
  · rw [hdc, hset, hr]
  · rw [hdc, hset, hc]
  · rw [hdc, hset, hwd]

/-- Claim C7. One run of `setPixelFormat` calls the format chooser
(`wglChoosePixelFormatARB` or `ChoosePixelFormat`) exactly once, and
`SetPixelFormat` and `wglCreateContext` at most once each; it returns `true` if
and only if the chosen index is non-zero, `SetPixelFormat` on the recreated
device context succeeded and `wglCreateContext` returned a non-null handle; and
when it returns `true`, `renderContext` is that non-null handle. The calls are
really made: when the chosen index is zero the result is `false` and neither
`SetPixelFormat` nor `wglCreateContext` is called; when it is non-zero,
`SetPixelFormat` is called exactly once, on the recreated device context with
the chosen index; when the driver refuses it the result is `false`, no context
is created and `renderContext` keeps its value; when the driver accepts it,
`wglDeleteContext` on the old context and `wglCreateContext` on the recreated
device context are called once each, `renderContext` is the handle the driver
returned and the result is `true` exactly when that handle is non-null. -/
theorem setPixelFormat_single_attempt (api : Win32 W) (pixelFormat : OpenGLPixelFormat)
    (c : WindowedGLContext) (s : Sys W) :
    countCalls [NativeFunction.wglChoosePixelFormatARB, NativeFunction.ChoosePixelFormat]
      (newCalls s (setPixelFormat api pixelFormat c s).2.2) ≤ 1 ∧
    countCalls [NativeFunction.SetPixelFormat]
      (newCalls s (setPixelFormat api pixelFormat c s).2.2) ≤ 1 ∧
    countCalls [NativeFunction.wglCreateContext]
      (newCalls s (setPixelFormat api pixelFormat c s).2.2) ≤ 1 ∧
    ((setPixelFormat api pixelFormat c s).1 = true ↔
      ((setPixelFormat.chooseFormat api pixelFormat c s).1 ≠ 0 ∧
        (∃ pfd, NativeCall.SetPixelFormat (setPixelFormat api pixelFormat c s).2.1.dc
            (setPixelFormat.chooseFormat api pixelFormat c s).1 pfd true
          ∈ newCalls s (setPixelFormat api pixelFormat c s).2.2) ∧
        (∃ h : HGLRC, h ≠ 0 ∧
          NativeCall.wglCreateContext (setPixelFormat api pixelFormat c s).2.1.dc h
            ∈ newCalls s (setPixelFormat api pixelFormat c s).2.2))) ∧
    ((setPixelFormat api pixelFormat c s).1 = true →
      (setPixelFormat api pixelFormat c s).2.1.renderContext ≠ 0 ∧
      NativeCall.wglCreateContext (setPixelFormat api pixelFormat c s).2.1.dc
          (setPixelFormat api pixelFormat c s).2.1.renderContext
        ∈ newCalls s (setPixelFormat api pixelFormat c s).2.2) ∧
    (∃ e : NativeCall,
      callsTo [NativeFunction.wglChoosePixelFormatARB, NativeFunction.ChoosePixelFormat]
          (newCalls s (setPixelFormat api pixelFormat c s).2.2) = [e] ∧
      ((∃ (attributes : List Int) (ok : Bool) (stored : Option Int),
          e = NativeCall.wglChoosePixelFormatARB c.dc attributes ok stored ∧
          (setPixelFormat.chooseFormat api pixelFormat c s).1 = stored.getD 0) ∨
        e = NativeCall.ChoosePixelFormat c.dc (setPixelFormat.descriptor pixelFormat)
              (setPixelFormat.chooseFormat api pixelFormat c s).1)) ∧
    ((setPixelFormat.chooseFormat api pixelFormat c s).1 = 0 →
      (setPixelFormat api pixelFormat c s).1 = false ∧
      (setPixelFormat api pixelFormat c s).2.1 = c ∧
      callsTo [NativeFunction.SetPixelFormat, NativeFunction.wglDeleteContext,
          NativeFunction.wglCreateContext]
        (newCalls s (setPixelFormat api pixelFormat c s).2.2) = []) ∧
    ((setPixelFormat.chooseFormat api pixelFormat c s).1 ≠ 0 →
      ∃ w0 : W,
        callsTo [NativeFunction.SetPixelFormat, NativeFunction.wglDeleteContext,
            NativeFunction.wglCreateContext]
          (newCalls s (setPixelFormat api pixelFormat c s).2.2) =
          NativeCall.SetPixelFormat (setPixelFormat api pixelFormat c s).2.1.dc
              (setPixelFormat.chooseFormat api pixelFormat c s).1
              (setPixelFormat.descriptor pixelFormat)
              (api.SetPixelFormat (setPixelFormat api pixelFormat c s).2.1.dc
                (setPixelFormat.chooseFormat api pixelFormat c s).1
                (setPixelFormat.descriptor pixelFormat) w0).1
            :: (if (api.SetPixelFormat (setPixelFormat api pixelFormat c s).2.1.dc
                  (setPixelFormat.chooseFormat api pixelFormat c s).1
                  (setPixelFormat.descriptor pixelFormat) w0).1 = true then
                [NativeCall.wglDeleteContext c.renderContext,
                  NativeCall.wglCreateContext (setPixelFormat api pixelFormat c s).2.1.dc
                    (api.wglCreateContext (setPixelFormat api pixelFormat c s).2.1.dc
                      (api.wglDeleteContext c.renderContext
                        (api.SetPixelFormat (setPixelFormat api pixelFormat c s).2.1.dc
                          (setPixelFormat.chooseFormat api pixelFormat c s).1
                          (setPixelFormat.descriptor pixelFormat) w0).2)).1]
              else []) ∧
        (setPixelFormat api pixelFormat c s).1 =
          ((api.SetPixelFormat (setPixelFormat api pixelFormat c s).2.1.dc
              (setPixelFormat.chooseFormat api pixelFormat c s).1
              (setPixelFormat.descriptor pixelFormat) w0).1 &&
            (api.wglCreateContext (setPixelFormat api pixelFormat c s).2.1.dc
              (api.wglDeleteContext c.renderContext
                (api.SetPixelFormat (setPixelFormat api pixelFormat c s).2.1.dc
                  (setPixelFormat.chooseFormat api pixelFormat c s).1
                  (setPixelFormat.descriptor pixelFormat) w0).2)).1 != 0) ∧
        (setPixelFormat api pixelFormat c s).2.1.renderContext =
          (if (api.SetPixelFormat (setPixelFormat api pixelFormat c s).2.1.dc
                (setPixelFormat.chooseFormat api pixelFormat c s).1
                (setPixelFormat.descriptor pixelFormat) w0).1 = true then
            (api.wglCreateContext (setPixelFormat api pixelFormat c s).2.1.dc
              (api.wglDeleteContext c.renderContext
                (api.SetPixelFormat (setPixelFormat api pixelFormat c s).2.1.dc
                  (setPixelFormat.chooseFormat api pixelFormat c s).1
                  (setPixelFormat.descriptor pixelFormat) w0).2)).1
          else c.renderContext)) := by
  have hold :
      countCalls [NativeFunction.wglChoosePixelFormatARB, NativeFunction.ChoosePixelFormat]
        (newCalls s (setPixelFormat api pixelFormat c s).2.2) ≤ 1 ∧
      countCalls [NativeFunction.SetPixelFormat]
        (newCalls s (setPixelFormat api pixelFormat c s).2.2) ≤ 1 ∧
      countCalls [NativeFunction.wglCreateContext]
        (newCalls s (setPixelFormat api pixelFormat c s).2.2) ≤ 1 ∧
      ((setPixelFormat api pixelFormat c s).1 = true ↔
        ((setPixelFormat.chooseFormat api pixelFormat c s).1 ≠ 0 ∧
          (∃ pfd, NativeCall.SetPixelFormat (setPixelFormat api pixelFormat c s).2.1.dc
              (setPixelFormat.chooseFormat api pixelFormat c s).1 pfd true
            ∈ newCalls s (setPixelFormat api pixelFormat c s).2.2) ∧
          (∃ h : HGLRC, h ≠ 0 ∧
            NativeCall.wglCreateContext (setPixelFormat api pixelFormat c s).2.1.dc h
              ∈ newCalls s (setPixelFormat api pixelFormat c s).2.2))) ∧
      ((setPixelFormat api pixelFormat c s).1 = true →
        (setPixelFormat api pixelFormat c s).2.1.renderContext ≠ 0 ∧
        NativeCall.wglCreateContext (setPixelFormat api pixelFormat c s).2.1.dc
            (setPixelFormat api pixelFormat c s).2.1.renderContext
          ∈ newCalls s (setPixelFormat api pixelFormat c s).2.2) := by
    obtain ⟨b, e, rest, hcalls, he, hrest⟩ := setPixelFormat_calls api pixelFormat c s
    rw [hcalls]
    rcases hrest with ⟨h0, rfl, hr, hc⟩ | ⟨hf, inact, hwnd, hwnd2, ok, h, hinact, rfl, hr, hrc, -⟩
    · rw [hr]
      rcases he with ⟨-, ok2, fmt, rfl, -⟩ | ⟨-, rfl⟩ <;>
        simp [countCalls, callsTo, NativeCall.function, h0]
    · rw [hr, hrc]
      rcases he with ⟨-, ok2, fmt, rfl, -⟩ | ⟨-, rfl⟩ <;>
        rcases hinact with rfl | ⟨b2, rfl⟩ <;> cases ok <;>
        by_cases hw : c.nativeWindow = 0 <;> by_cases hh : h = 0 <;>
        simp [countCalls, callsTo, NativeCall.function, hf, hw, hh]
  obtain ⟨h1, h2, h3, h4, h5⟩ := hold
  refine ⟨h1, h2, h3, h4, h5, ?_, ?_, ?_⟩
  · obtain ⟨b, e, rest, hcalls, he, hrest⟩ := setPixelFormat_calls api pixelFormat c s
    have hrest0 :
        callsTo [NativeFunction.wglChoosePixelFormatARB, NativeFunction.ChoosePixelFormat] rest
          = [] := by
      rcases hrest with ⟨-, rfl, -, -⟩ | ⟨-, inact, hwnd, hwnd2, ok, h, hinact, rfl, -, -, -⟩
      · rfl
      · rcases hinact with rfl | ⟨b2, rfl⟩ <;> cases ok <;>
          by_cases hw : c.nativeWindow = 0 <;> simp [callsTo, NativeCall.function, hw]
    rw [hcalls, callsTo_append, hrest0]
    rcases he with ⟨-, ok2, fmt, he, hfmt⟩ | ⟨-, he⟩
    · refine ⟨e, ?_, Or.inl ⟨_, ok2, fmt, he, hfmt⟩⟩
      rw [he]
      simp [callsTo, NativeCall.function]
    · refine ⟨e, ?_, Or.inr he⟩
      rw [he]
      simp [callsTo, NativeCall.function]
  · intro h0
    obtain ⟨b, e, rest, hcalls, he, hrest⟩ := setPixelFormat_calls api pixelFormat c s
    rcases hrest with ⟨-, rfl, hr, hc⟩ | ⟨hf, -⟩
    · refine ⟨hr, hc, ?_⟩
      rw [hcalls]
      rcases he with ⟨-, ok2, fmt, rfl, -⟩ | ⟨-, rfl⟩ <;>
        simp [callsTo, NativeCall.function]
    · exact absurd h0 hf
  · intro hf
    obtain ⟨e, hwnd, hwnd2, w0, he, hcalls, hr, hrc, -⟩ :=
      setPixelFormat_nonzero_exact api pixelFormat c s hf
    refine ⟨w0, ?_, hr, hrc⟩
    rw [hcalls]
    rcases he with ⟨ok2, fmt, rfl, -⟩ | rfl <;>
      by_cases ha : isActive api c (setPixelFormat.chooseFormat api pixelFormat c s).2.2 = true <;>
      by_cases hw : c.nativeWindow = 0 <;>
      by_cases hok : (api.SetPixelFormat (setPixelFormat api pixelFormat c s).2.1.dc
                (setPixelFormat.chooseFormat api pixelFormat c s).1
                (setPixelFormat.descriptor pixelFormat) w0).1 = true <;>
      simp [callsTo, NativeCall.function, ha, hw, hok]

/-- Claim C11, as amended. When `setPixelFormat` returns `true` on a context with
a window peer, the calls it has made are exactly these, in this order: the
initial `wglMakeCurrent`, the chooser, the deactivation `wglMakeCurrent (0, 0)`
if and only if the context was the thread's current one after the chooser
(`isActive()`), `ReleaseDC` and the destruction of the old peer, the creation
of the new peer and `GetDC`, a successful `SetPixelFormat`, `wglDeleteContext`
on the old render context and `wglCreateContext`, whose non-null result is the
new `renderContext`. No `wglMakeCurrent` follows the deactivation:
`setPixelFormat` does not rebind the new context. -/
theorem setPixelFormat_success_trace (api : Win32 W) (pixelFormat : OpenGLPixelFormat)
    (c : WindowedGLContext) (s : Sys W) (hw : c.nativeWindow ≠ 0)
    (ht : (setPixelFormat api pixelFormat c s).1 = true) :
    (setPixelFormat api pixelFormat c s).2.1.renderContext ≠ 0 ∧
    ∃ (e : NativeCall) (hwnd hwnd2 : HWND),
      ((∃ (attributes : List Int) (ok : Bool) (stored : Option Int),
          e = NativeCall.wglChoosePixelFormatARB c.dc attributes ok stored ∧
          (setPixelFormat.chooseFormat api pixelFormat c s).1 = stored.getD 0) ∨
        e = NativeCall.ChoosePixelFormat c.dc (setPixelFormat.descriptor pixelFormat)
              (setPixelFormat.chooseFormat api pixelFormat c s).1) ∧
      newCalls s (setPixelFormat api pixelFormat c s).2.2 =
        [NativeCall.wglMakeCurrent c.dc c.renderContext (makeActive api c s).1, e] ++
        (if isActive api c (setPixelFormat.chooseFormat api pixelFormat c s).2.2 = true then
          [NativeCall.wglMakeCurrent 0 0
            (api.wglMakeCurrent 0 0
              (setPixelFormat.chooseFormat api pixelFormat c s).2.2.world).1]
        else []) ++
        [NativeCall.ReleaseDC hwnd c.dc,
          NativeCall.deletePeer c.nativeWindow,
          NativeCall.createNonRepaintingEmbeddedWindowsPeer c.component
            (setPixelFormat api pixelFormat c s).2.1.nativeWindow,
          NativeCall.setVisible (setPixelFormat api pixelFormat c s).2.1.nativeWindow true,
          NativeCall.GetDC hwnd2 (setPixelFormat api pixelFormat c s).2.1.dc,
          NativeCall.SetPixelFormat (setPixelFormat api pixelFormat c s).2.1.dc
            (setPixelFormat.chooseFormat api pixelFormat c s).1
            (setPixelFormat.descriptor pixelFormat) true,
          NativeCall.wglDeleteContext c.renderContext,
          NativeCall.wglCreateContext (setPixelFormat api pixelFormat c s).2.1.dc
            (setPixelFormat api pixelFormat c s).2.1.renderContext] := by
  have hf : (setPixelFormat.chooseFormat api pixelFormat c s).1 ≠ 0 := by
    intro h0
    rw [setPixelFormat_zero api pixelFormat c s h0] at ht
    exact absurd ht (by simp)
  obtain ⟨e, hwnd, hwnd2, w0, he, hcalls, hr, hrc, -⟩ :=
    setPixelFormat_nonzero_exact api pixelFormat c s hf
  rw [hr] at ht
  simp only [Bool.and_eq_true, bne_iff_ne, ne_eq] at ht
  obtain ⟨hok, hh⟩ := ht
  rw [hok] at hcalls hrc
  simp only [if_true] at hcalls hrc
  refine ⟨by rw [hrc]; exact hh, e, hwnd, hwnd2, ?_, ?_⟩
  · rcases he with ⟨ok2, fmt, h1, h2⟩ | h1
    · exact Or.inl ⟨_, ok2, fmt, h1, h2⟩
    · exact Or.inr h1
  · rw [hcalls, hrc]
    simp [hw]

/-- Claim C11 fails as stated: on the simulated driver, where `wglCreateContext`
leaves the thread's current context alone, `setPixelFormat` returns `true` with
the new render context `6`, the thread has no current context afterwards and
`isActive()` is `false`. -/
theorem setPixelFormat_leaves_context_unbound :
    (setPixelFormat (simApi simExtendedDriver) simRequest simContext simReady).1 = true ∧
    isActive (simApi simExtendedDriver)
      (setPixelFormat (simApi simExtendedDriver) simRequest simContext simReady).2.1
      (setPixelFormat (simApi simExtendedDriver) simRequest simContext simReady).2.2 = false ∧
    (simApi simExtendedDriver).wglGetCurrentContext
      (setPixelFormat (simApi simExtendedDriver) simRequest simContext simReady).2.2.world = 0 ∧
    (setPixelFormat (simApi simExtendedDriver) simRequest simContext simReady).2.1.renderContext
      = 6 := by
  refine ⟨rfl, rfl, rfl, rfl⟩

theorem values_length_eq (n : Nat) (written : List Int) (hn : n ≤ 32) :
    (fillInPixelFormatDetails.values n written).length = 32 := by
  simp only [fillInPixelFormatDetails.values, List.length_append, List.length_replicate,
    List.length_take]
  omega

theorem values_getD_of_le (n : Nat) (written : List Int) (k : Nat) (hk : n ≤ k) :
    (fillInPixelFormatDetails.values n written).getD k 0 = 0 := by
  unfold fillInPixelFormatDetails.values
  rw [List.getD_eq_getElem?_getD, List.getElem?_append_right (by simp; omega)]
  simp only [List.getElem?_replicate, List.length_take]
  split <;> rfl

theorem attributes_stored_general (ms : Bool) (pf : OpenGLPixelFormat)
    (pfd : PIXELFORMATDESCRIPTOR) :
    (setPixelFormat.attributes ms pf pfd).stored =
      [WGL_DRAW_TO_WINDOW_ARB, GL_TRUE, WGL_SUPPORT_OPENGL_ARB, GL_TRUE,
        WGL_ACCELERATION_ARB, WGL_FULL_ACCELERATION_ARB, WGL_DOUBLE_BUFFER_ARB, GL_TRUE,
        WGL_PIXEL_TYPE_ARB, WGL_TYPE_RGBA_ARB,
        WGL_COLOR_BITS_ARB, pfd.cColorBits,
        WGL_RED_BITS_ARB, pf.redBits, WGL_GREEN_BITS_ARB, pf.greenBits,
        WGL_BLUE_BITS_ARB, pf.blueBits, WGL_ALPHA_BITS_ARB, pf.alphaBits,
        WGL_DEPTH_BITS_ARB, pf.depthBufferBits]
      ++ (if pf.stencilBufferBits > 0 then [WGL_STENCIL_BITS_ARB, pf.stencilBufferBits] else [])
      ++ [WGL_ACCUM_RED_BITS_ARB, pf.accumulationBufferRedBits,
          WGL_ACCUM_GREEN_BITS_ARB, pf.accumulationBufferGreenBits,
          WGL_ACCUM_BLUE_BITS_ARB, pf.accumulationBufferBlueBits,
          WGL_ACCUM_ALPHA_BITS_ARB, pf.accumulationBufferAlphaBits]
      ++ (if ms = true ∧ pf.fullSceneAntiAliasingNumSamples > 0 then
            [WGL_SAMPLE_BUFFERS_ARB, 1, WGL_SAMPLES_ARB, pf.fullSceneAntiAliasingNumSamples]
          else [])
      ++ [0] := by
  by_cases h1 : pf.stencilBufferBits > 0 <;>
    by_cases h2 : pf.fullSceneAntiAliasingNumSamples > 0 <;>
    cases ms <;> simp [setPixelFormat.attributes, IntArray.store, h1, h2]

theorem attributes_no_overrun (ms : Bool) (pf : OpenGLPixelFormat)
    (pfd : PIXELFORMATDESCRIPTOR) :
    (setPixelFormat.attributes ms pf pfd).capacity = 64 ∧
    (setPixelFormat.attributes ms pf pfd).overrun = false := by
  by_cases h1 : pf.stencilBufferBits > 0 <;>
    by_cases h2 : pf.fullSceneAntiAliasingNumSamples > 0 <;>
    cases ms <;> simp [setPixelFormat.attributes, IntArray.store, h1, h2]

theorem attributes_setPixelFormat_shape (ms : Bool) (pf : OpenGLPixelFormat)
    (pfd : PIXELFORMATDESCRIPTOR) :
    (setPixelFormat.attributes ms pf pfd).stored.length ≤ 37 ∧
    (setPixelFormat.attributes ms pf pfd).stored.length % 2 = 1 ∧
    (setPixelFormat.attributes ms pf pfd).stored.getLast? = some 0 ∧
    (setPixelFormat.attributes ms pf pfd).stored =
      (attributePairs (setPixelFormat.attributes ms pf pfd).stored).flatMap
        (fun p => [p.1, p.2]) ++ [0] := by
  rw [attributes_stored_general]
  by_cases h1 : pf.stencilBufferBits > 0 <;>
    by_cases h2 : pf.fullSceneAntiAliasingNumSamples > 0 <;>
    cases ms <;>
    simp [h1, h2, attributePairs]

theorem attributes_fillIn_shape (ms : Bool) :
    (fillInPixelFormatDetails.attributes ms).capacity = 32 ∧
    (fillInPixelFormatDetails.attributes ms).overrun = false ∧
    (fillInPixelFormatDetails.attributes ms).stored.length = (if ms = true then 16 else 15) := by
  cases ms <;> simp [fillInPixelFormatDetails.attributes, IntArray.store]

theorem fromFirstSixteen_eq (v : List Int) (hv : v.length = 32) :
    fillInPixelFormatDetails.fromFirstSixteen (v.take 16) =
      (v.getD 4 0 == WGL_TYPE_RGBA_ARB && (v.getD 3 0 == GL_TRUE
        && (v.getD 2 0 == WGL_FULL_ACCELERATION_ARB
        && (v.getD 1 0 == GL_TRUE && v.getD 0 0 == GL_TRUE))),
      { redBits := v.getD 5 0, greenBits := v.getD 6 0, blueBits := v.getD 7 0
        alphaBits := v.getD 8 0
        depthBufferBits := v.getD 9 0, stencilBufferBits := v.getD 10 0
        accumulationBufferRedBits := v.getD 11 0, accumulationBufferGreenBits := v.getD 12 0
        accumulationBufferBlueBits := v.getD 13 0, accumulationBufferAlphaBits := v.getD 14 0
        fullSceneAntiAliasingNumSamples := toBYTE (v.getD 15 0) }) := by
  match v, hv with
  | v0 :: v1 :: v2 :: v3 :: v4 :: v5 :: v6 :: v7 :: v8 :: v9 :: v10 :: v11 :: v12 :: v13 :: v14
      :: v15 :: rest, _ =>
    simp [fillInPixelFormatDetails.fromFirstSixteen]

theorem fillIn_extended_outcome (api : Win32 W) (c : WindowedGLContext) (pixelFormatIndex : Int)
    (result : OpenGLPixelFormat) (s : Sys W)
    (hext : (api.isExtensionSupported "WGL_ARB_pixel_format" s.world
      && api.wglGetProcAddress "wglGetPixelFormatAttribivARB" s.world) = true)
    (hq : (api.wglGetPixelFormatAttribivARB c.dc pixelFormatIndex
      (fillInPixelFormatDetails.attributes
        (api.isExtensionSupported "WGL_ARB_multisample" s.world)).stored s.world).1.1 = true) :
    ((fillInPixelFormatDetails api c pixelFormatIndex result s).1,
      (fillInPixelFormatDetails api c pixelFormatIndex result s).2.1) =
    fillInPixelFormatDetails.fromFirstSixteen
      ((fillInPixelFormatDetails.values
        (fillInPixelFormatDetails.attributes
          (api.isExtensionSupported "WGL_ARB_multisample" s.world)).stored.length
        (api.wglGetPixelFormatAttribivARB c.dc pixelFormatIndex
          (fillInPixelFormatDetails.attributes
            (api.isExtensionSupported "WGL_ARB_multisample" s.world)).stored
          s.world).1.2).take 16) := by
  rw [fromFirstSixteen_eq _ (values_length_eq _ _ (by
    rw [(attributes_fillIn_shape _).2.2]; split <;> omega))]
  simp only [fillInPixelFormatDetails, hext, if_true, Sys.wglGetPixelFormatAttribivARB, hq]

theorem fillIn_samples_zero (api : Win32 W) (c : WindowedGLContext) (pixelFormatIndex : Int)
    (result : OpenGLPixelFormat) (s : Sys W)
    (hms : api.isExtensionSupported "WGL_ARB_multisample" s.world = false)
    (hok : (fillInPixelFormatDetails api c pixelFormatIndex result s).1 = true) :
    (fillInPixelFormatDetails api c pixelFormatIndex result s).2.1.fullSceneAntiAliasingNumSamples
      = 0 := by
  by_cases hext : (api.isExtensionSupported "WGL_ARB_pixel_format" s.world
      && api.wglGetProcAddress "wglGetPixelFormatAttribivARB" s.world) = true
  · by_cases hq : (api.wglGetPixelFormatAttribivARB c.dc pixelFormatIndex
        (fillInPixelFormatDetails.attributes
          (api.isExtensionSupported "WGL_ARB_multisample" s.world)).stored s.world).1.1 = true
    · have h := fillIn_extended_outcome api c pixelFormatIndex result s hext hq
      rw [fromFirstSixteen_eq _ (values_length_eq _ _ (by
        rw [(attributes_fillIn_shape _).2.2]; split <;> omega))] at h
      have h2 := congrArg (fun p => p.2.fullSceneAntiAliasingNumSamples) h
      simp only at h2
      rw [h2, values_getD_of_le _ _ _ (by rw [(attributes_fillIn_shape _).2.2, hms]; simp)]
      rfl
    · simp only [fillInPixelFormatDetails, hext, if_true, Sys.wglGetPixelFormatAttribivARB,
        hq] at hok
      simp at hok
  · simp only [fillInPixelFormatDetails, hext] at hok ⊢
    by_cases hd : (Sys.DescribePixelFormat api c.dc pixelFormatIndex sizeofPFD s).1.1 = 0
    · simp [hd] at hok
    · simp [hd]

/-- Claim C17. For every request and every combination of extensions,
`setPixelFormat` stores at most 37 entries into its 64-entry array without a
store outside it; the stored list has odd length, ends in `0` and consists of
name/value pairs before that. `fillInPixelFormatDetails` stores at most 16 names
into its 32-entry array, its values array has 32 entries, the outcome of a
successful query is a function of the first sixteen values, and when
`WGL_ARB_multisample` is unsupported a resolved descriptor has
`fullSceneAntiAliasingNumSamples = 0`. -/
theorem attribute_buffers_never_overrun (api : Win32 W) (c : WindowedGLContext)
    (pixelFormatIndex : Int) (result : OpenGLPixelFormat) (s : Sys W) (multisample : Bool)
    (pixelFormat : OpenGLPixelFormat) (pfd : PIXELFORMATDESCRIPTOR) (written : List Int) :
    ((setPixelFormat.attributes multisample pixelFormat pfd).capacity = 64 ∧
      (setPixelFormat.attributes multisample pixelFormat pfd).overrun = false ∧
      (setPixelFormat.attributes multisample pixelFormat pfd).stored.length ≤ 37 ∧
      (setPixelFormat.attributes multisample pixelFormat pfd).stored.length % 2 = 1 ∧
      (setPixelFormat.attributes multisample pixelFormat pfd).stored.getLast? = some 0 ∧
      (setPixelFormat.attributes multisample pixelFormat pfd).stored =
        (attributePairs (setPixelFormat.attributes multisample pixelFormat pfd).stored).flatMap
          (fun p => [p.1, p.2]) ++ [0]) ∧
    ((fillInPixelFormatDetails.attributes multisample).capacity = 32 ∧
      (fillInPixelFormatDetails.attributes multisample).overrun = false ∧
      (fillInPixelFormatDetails.attributes multisample).stored.length ≤ 16 ∧
      (fillInPixelFormatDetails.values
        (fillInPixelFormatDetails.attributes multisample).stored.length written).length = 32) ∧
    ((api.isExtensionSupported "WGL_ARB_pixel_format" s.world
        && api.wglGetProcAddress "wglGetPixelFormatAttribivARB" s.world) = true →
      (api.wglGetPixelFormatAttribivARB c.dc pixelFormatIndex
        (fillInPixelFormatDetails.attributes
          (api.isExtensionSupported "WGL_ARB_multisample" s.world)).stored s.world).1.1 = true →
      ((fillInPixelFormatDetails api c pixelFormatIndex result s).1,
        (fillInPixelFormatDetails api c pixelFormatIndex result s).2.1) =
      fillInPixelFormatDetails.fromFirstSixteen
        ((fillInPixelFormatDetails.values
          (fillInPixelFormatDetails.attributes
            (api.isExtensionSupported "WGL_ARB_multisample" s.world)).stored.length
          (api.wglGetPixelFormatAttribivARB c.dc pixelFormatIndex
            (fillInPixelFormatDetails.attributes
              (api.isExtensionSupported "WGL_ARB_multisample" s.world)).stored
            s.world).1.2).take 16)) ∧
    (api.isExtensionSupported "WGL_ARB_multisample" s.world = false →
      (fillInPixelFormatDetails api c pixelFormatIndex result s).1 = true →
      (fillInPixelFormatDetails api c pixelFormatIndex result
        s).2.1.fullSceneAntiAliasingNumSamples = 0) := by
  refine ⟨⟨(attributes_no_overrun _ _ _).1, (attributes_no_overrun _ _ _).2,
      attributes_setPixelFormat_shape _ _ _⟩,
    ⟨(attributes_fillIn_shape _).1, (attributes_fillIn_shape _).2.1, ?_, ?_⟩,
    fillIn_extended_outcome api c pixelFormatIndex result s,
    fillIn_samples_zero api c pixelFormatIndex result s⟩
  · rw [(attributes_fillIn_shape _).2.2]
    split <;> omega
  · apply values_length_eq
    rw [(attributes_fillIn_shape _).2.2]
    split <;> omega

theorem alreadyListed_eq_decide (pf : OpenGLPixelFormat) (results : List OpenGLPixelFormat) :
    findAlternativeOpenGLPixelFormats.alreadyListed pf results = decide (pf ∈ results) := by
  rw [Bool.eq_iff_iff, alreadyListed_iff]
  simp only [OpenGLPixelFormat.eq_iff, decide_eq_true_eq]
  constructor
  · rintro ⟨r, hr, rfl⟩
    exact hr
  · intro h
    exact ⟨pf, h, rfl⟩

theorem not_eq_eq_decide (y x : OpenGLPixelFormat) : (!(y.eq x)) = decide (y ≠ x) := by
  by_cases h : y = x
  · subst h
    simp [(OpenGLPixelFormat.eq_iff y y).2 rfl]
  · have : y.eq x = false := by
      rw [← Bool.not_eq_true, OpenGLPixelFormat.eq_iff]
      exact h
    simp [h, this]

theorem foldl_listing (xs acc : List OpenGLPixelFormat) :
    xs.foldl (fun acc x =>
        if findAlternativeOpenGLPixelFormats.alreadyListed x acc then acc else acc ++ [x]) acc
      = acc ++ (keepFirstOccurrences xs).filter (fun y => decide (y ∉ acc)) := by
  induction xs generalizing acc with
  | nil => simp [keepFirstOccurrences]
  | cons x xs ih =>
    rw [List.foldl_cons, alreadyListed_eq_decide]
    by_cases hx : x ∈ acc
    · simp only [hx, decide_True, if_true]
      rw [ih, keepFirstOccurrences]
      simp only [List.filter_cons, hx, not_true_eq_false, decide_False, Bool.false_eq_true,
        if_false, List.filter_filter]
      congr 1
      apply List.filter_congr
      intro y _
      rw [not_eq_eq_decide]
      by_cases hy : y ∈ acc
      · simp [hy]
      · have : y ≠ x := fun h => hy (h ▸ hx)
        simp [hy, this]
    · simp only [hx, decide_False, Bool.false_eq_true, if_false]
      rw [ih, keepFirstOccurrences]
      simp only [List.filter_cons, hx, not_false_eq_true, decide_True, if_true,
        List.filter_filter, List.append_assoc, List.singleton_append]
      congr 2
      apply List.filter_congr
      intro y _
      rw [not_eq_eq_decide]
      by_cases hy : y ∈ acc
      · simp [hy]
      · by_cases hyx : y = x
        · simp [hyx]
        · simp [hy, hyx]

theorem loop_eq_foldl (api : Win32 W) (c : WindowedGLContext) :
    ∀ (n : Nat) (i : Int) (pf : OpenGLPixelFormat) (results : List OpenGLPixelFormat)
      (s : Sys W),
      findAlternativeOpenGLPixelFormats.loop api c n i pf results s =
        ((validDescriptors (resolveInOrder api c n i pf s).1).foldl (fun acc x =>
          if findAlternativeOpenGLPixelFormats.alreadyListed x acc then acc else acc ++ [x])
          results,
        (resolveInOrder api c n i pf s).2)
  | 0, _, _, _, _ => rfl
  | n + 1, i, pf, results, s => by
    rw [findAlternativeOpenGLPixelFormats.loop, loop_eq_foldl api c n, resolveInOrder]
    by_cases hok : (fillInPixelFormatDetails api c (i + 1) pf s).1 = true
    · simp [validDescriptors, hok]
    · simp [validDescriptors, hok]

theorem fillInPixelFormatDetails_log (api : Win32 W) (c : WindowedGLContext)
    (pixelFormatIndex : Int) (result : OpenGLPixelFormat) (s : Sys W) :
    ∃ e : NativeCall,
      (fillInPixelFormatDetails api c pixelFormatIndex result s).2.2.log = s.log ++ [e] ∧
      e.queriedFormat = some pixelFormatIndex := by
  by_cases hext : (api.isExtensionSupported "WGL_ARB_pixel_format" s.world
      && api.wglGetProcAddress "wglGetPixelFormatAttribivARB" s.world) = true
  · refine ⟨NativeCall.wglGetPixelFormatAttribivARB c.dc pixelFormatIndex
      (fillInPixelFormatDetails.attributes
        (api.isExtensionSupported "WGL_ARB_multisample" s.world)).stored
      (api.wglGetPixelFormatAttribivARB c.dc pixelFormatIndex
        (fillInPixelFormatDetails.attributes
          (api.isExtensionSupported "WGL_ARB_multisample" s.world)).stored s.world).1.1
      (api.wglGetPixelFormatAttribivARB c.dc pixelFormatIndex
        (fillInPixelFormatDetails.attributes
          (api.isExtensionSupported "WGL_ARB_multisample" s.world)).stored s.world).1.2,
      ?_, rfl⟩
    simp only [fillInPixelFormatDetails, hext, if_true]
    split_ifs <;> rfl
  · refine ⟨NativeCall.DescribePixelFormat c.dc pixelFormatIndex sizeofPFD
      (api.DescribePixelFormat c.dc pixelFormatIndex sizeofPFD s.world).1.1
      (api.DescribePixelFormat c.dc pixelFormatIndex sizeofPFD s.world).1.2, ?_, rfl⟩
    rw [Bool.not_eq_true] at hext
    simp only [fillInPixelFormatDetails, hext, Bool.false_eq_true, if_false]
    split_ifs <;> rfl

theorem resolveInOrder_log (api : Win32 W) (c : WindowedGLContext) :
    ∀ (n : Nat) (i : Int) (pf : OpenGLPixelFormat) (s : Sys W),
      (resolveInOrder api c n i pf s).1.map (fun o => o.1)
        = (List.range n).map (fun (k : Nat) => i + (k : Int) + 1) ∧
      ∃ calls : List NativeCall,
        (resolveInOrder api c n i pf s).2.log = s.log ++ calls ∧
        calls.map NativeCall.queriedFormat
          = (List.range n).map (fun (k : Nat) => some (i + (k : Int) + 1))
  | 0, _, _, s => ⟨rfl, [], by simp [resolveInOrder], rfl⟩
  | n + 1, i, pf, s => by
    obtain ⟨e, hlog, he⟩ := fillInPixelFormatDetails_log api c (i + 1) pf s
    obtain ⟨hidx, calls, hcalls, hq⟩ := resolveInOrder_log api c n (i + 1)
      (fillInPixelFormatDetails api c (i + 1) pf s).2.1
      (fillInPixelFormatDetails api c (i + 1) pf s).2.2
    have hshift : ∀ k : Nat, i + 1 + (k : Int) + 1 = i + ((k + 1 : Nat) : Int) + 1 := by
      intro k
      push_cast
      ring
    refine ⟨?_, e :: calls, ?_, ?_⟩
    · simp only [resolveInOrder, List.map_cons, hidx, List.range_succ_eq_map, List.map_map]
      simp [Function.comp_def, hshift]
    · simp only [resolveInOrder, hcalls, hlog]
      simp
    · simp only [List.map_cons, he, hq, List.range_succ_eq_map, List.map_map]
      simp [Function.comp_def, hshift]

theorem numTypes_log (api : Win32 W) (c : WindowedGLContext) (s : Sys W) :
    ∃ e : NativeCall,
      (findAlternativeOpenGLPixelFormats.numTypes api c s).2.log = s.log ++ [e] ∧
      ((∃ ok values, e = NativeCall.wglGetPixelFormatAttribivARB c.dc 1
          [WGL_NUMBER_PIXEL_FORMATS_ARB] ok values) ∨
        (∃ pfd, e = NativeCall.DescribePixelFormat c.dc 0 0
          (findAlternativeOpenGLPixelFormats.numTypes api c s).1 pfd)) := by
  by_cases hext : (api.isExtensionSupported "WGL_ARB_pixel_format" s.world
      && api.wglGetProcAddress "wglGetPixelFormatAttribivARB" s.world) = true
  · refine ⟨NativeCall.wglGetPixelFormatAttribivARB c.dc 1 [WGL_NUMBER_PIXEL_FORMATS_ARB]
      (api.wglGetPixelFormatAttribivARB c.dc 1 [WGL_NUMBER_PIXEL_FORMATS_ARB] s.world).1.1
      (api.wglGetPixelFormatAttribivARB c.dc 1 [WGL_NUMBER_PIXEL_FORMATS_ARB] s.world).1.2,
      ?_, Or.inl ⟨_, _, rfl⟩⟩
    simp only [findAlternativeOpenGLPixelFormats.numTypes, hext, if_true,
      Sys.wglGetPixelFormatAttribivARB]
  · have hn : findAlternativeOpenGLPixelFormats.numTypes api c s =
        ((Sys.DescribePixelFormat api c.dc 0 0 s).1.1, (Sys.DescribePixelFormat api c.dc 0 0 s).2) := by
      rw [Bool.not_eq_true] at hext
      simp only [findAlternativeOpenGLPixelFormats.numTypes, hext, Bool.false_eq_true, if_false]
    rw [hn]
    exact ⟨NativeCall.DescribePixelFormat c.dc 0 0
      (api.DescribePixelFormat c.dc 0 0 s.world).1.1
      (api.DescribePixelFormat c.dc 0 0 s.world).1.2, rfl, Or.inr ⟨_, rfl⟩⟩

/-- The count query of `findAlternativeOpenGLPixelFormats`: its one logged call,
the count it yields and the world it leaves, on each path. -/
theorem numTypes_exact (api : Win32 W) (c : WindowedGLContext) (s : Sys W) :
    ((findAlternativeOpenGLPixelFormats.numTypes api c s).2.log = s.log ++
      [if (api.isExtensionSupported "WGL_ARB_pixel_format" s.world
            && api.wglGetProcAddress "wglGetPixelFormatAttribivARB" s.world) = true then
          NativeCall.wglGetPixelFormatAttribivARB c.dc 1 [WGL_NUMBER_PIXEL_FORMATS_ARB]
            (api.wglGetPixelFormatAttribivARB c.dc 1 [WGL_NUMBER_PIXEL_FORMATS_ARB]
              s.world).1.1
            (api.wglGetPixelFormatAttribivARB c.dc 1 [WGL_NUMBER_PIXEL_FORMATS_ARB]
              s.world).1.2
        else
          NativeCall.DescribePixelFormat c.dc 0 0
            (api.DescribePixelFormat c.dc 0 0 s.world).1.1
            (api.DescribePixelFormat c.dc 0 0 s.world).1.2]) ∧
    (findAlternativeOpenGLPixelFormats.numTypes api c s).1 =
      (if (api.isExtensionSupported "WGL_ARB_pixel_format" s.world
            && api.wglGetProcAddress "wglGetPixelFormatAttribivARB" s.world) = true then
        ((api.wglGetPixelFormatAttribivARB c.dc 1 [WGL_NUMBER_PIXEL_FORMATS_ARB]
          s.world).1.2.take 1).headD 0
      else (api.DescribePixelFormat c.dc 0 0 s.world).1.1) ∧
    (findAlternativeOpenGLPixelFormats.numTypes api c s).2.world =
      (if (api.isExtensionSupported "WGL_ARB_pixel_format" s.world
            && api.wglGetProcAddress "wglGetPixelFormatAttribivARB" s.world) = true then
        (api.wglGetPixelFormatAttribivARB c.dc 1 [WGL_NUMBER_PIXEL_FORMATS_ARB] s.world).2
      else (api.DescribePixelFormat c.dc 0 0 s.world).2) := by
  by_cases hext : (api.isExtensionSupported "WGL_ARB_pixel_format" s.world
      && api.wglGetProcAddress "wglGetPixelFormatAttribivARB" s.world) = true
  · simp only [findAlternativeOpenGLPixelFormats.numTypes, hext, if_true,
      Sys.wglGetPixelFormatAttribivARB]
    exact ⟨trivial, trivial, trivial⟩
  · rw [Bool.not_eq_true] at hext
    simp only [findAlternativeOpenGLPixelFormats.numTypes, hext, Bool.false_eq_true, if_false,
      Sys.DescribePixelFormat]
    exact ⟨trivial, trivial, trivial⟩

/-- Claim C15 fails as stated. On the simulated legacy driver, which reports one
format, the calls of `findAlternativeOpenGLPixelFormats` ask about the format
indices `0` and `1`: the count is obtained by `DescribePixelFormat` at index
`0`. On the simulated extended driver, which reports four formats, they ask
about the indices `1, 1, 2, 3, 4`: the count is obtained by
`wglGetPixelFormatAttribivARB` at index `1`, which is then queried again. -/
theorem findAlternativeOpenGLPixelFormats_count_query_index :
    (findAlternativeOpenGLPixelFormats.numTypes (simApi simLegacyDriver) simContext
      simReady).1 = 1 ∧
    newCalls simReady (findAlternativeOpenGLPixelFormats (simApi simLegacyDriver) simContext
        simRequest [] simReady).2 =
      [NativeCall.DescribePixelFormat 2 0 0 1 {},
        NativeCall.DescribePixelFormat 2 1 40 1 simFormatSingleBuffered] ∧
    (newCalls simReady (findAlternativeOpenGLPixelFormats (simApi simLegacyDriver) simContext
        simRequest [] simReady).2).map NativeCall.queriedFormat = [some 0, some 1] ∧
    (findAlternativeOpenGLPixelFormats.numTypes (simApi simExtendedDriver) simContext
      simReady).1 = 4 ∧
    (newCalls simReady (findAlternativeOpenGLPixelFormats (simApi simExtendedDriver) simContext
        simRequest [] simReady).2).head? =
      some (NativeCall.wglGetPixelFormatAttribivARB 2 1 [WGL_NUMBER_PIXEL_FORMATS_ARB]
        true [4]) ∧
    (newCalls simReady (findAlternativeOpenGLPixelFormats (simApi simExtendedDriver) simContext
        simRequest [] simReady).2).map NativeCall.queriedFormat =
      [some 1, some 1, some 2, some 3, some 4] := by
  refine ⟨rfl, rfl, rfl, rfl, rfl, rfl⟩

/-- Claim C15, as amended. `findAlternativeOpenGLPixelFormats` first asks the
driver for the count with one call: `wglGetPixelFormatAttribivARB` at index `1`
for `WGL_NUMBER_PIXEL_FORMATS_ARB` when the extension is available, otherwise
`DescribePixelFormat (dc, 0, 0, 0)`. `N` is the value that call stored (`0` when
it stored nothing), respectively returned. All later calls are one descriptor
query per index `1, ..., N`, in ascending order, and these are the indices
resolved. With `results` empty on entry, `results` ends as the descriptors of
the indices for which `fillInPixelFormatDetails` returned `true`, in index
order, with every later duplicate removed. When `N <= 0`, `results` is
returned unchanged, whatever it held. -/
theorem findAlternativeOpenGLPixelFormats_enumeration (api : Win32 W)
    (c : WindowedGLContext) (pf0 : OpenGLPixelFormat) (s : Sys W) :
    (∃ calls : List NativeCall,
      newCalls s (findAlternativeOpenGLPixelFormats api c pf0 [] s).2 =
        (if (api.isExtensionSupported "WGL_ARB_pixel_format" s.world
              && api.wglGetProcAddress "wglGetPixelFormatAttribivARB" s.world) = true then
            NativeCall.wglGetPixelFormatAttribivARB c.dc 1 [WGL_NUMBER_PIXEL_FORMATS_ARB]
              (api.wglGetPixelFormatAttribivARB c.dc 1 [WGL_NUMBER_PIXEL_FORMATS_ARB]
                s.world).1.1
              (api.wglGetPixelFormatAttribivARB c.dc 1 [WGL_NUMBER_PIXEL_FORMATS_ARB]
                s.world).1.2
          else
            NativeCall.DescribePixelFormat c.dc 0 0
              (api.DescribePixelFormat c.dc 0 0 s.world).1.1
              (api.DescribePixelFormat c.dc 0 0 s.world).1.2) :: calls ∧
      calls.map NativeCall.queriedFormat =
        (List.range (findAlternativeOpenGLPixelFormats.numTypes api c s).1.toNat).map
          (fun (k : Nat) => some ((k : Int) + 1)) ∧
      newCalls (findAlternativeOpenGLPixelFormats.numTypes api c s).2
        (findAlternativeOpenGLPixelFormats api c pf0 [] s).2 = calls) ∧
    (findAlternativeOpenGLPixelFormats.numTypes api c s).1 =
      (if (api.isExtensionSupported "WGL_ARB_pixel_format" s.world
            && api.wglGetProcAddress "wglGetPixelFormatAttribivARB" s.world) = true then
        ((api.wglGetPixelFormatAttribivARB c.dc 1 [WGL_NUMBER_PIXEL_FORMATS_ARB]
          s.world).1.2.take 1).headD 0
      else (api.DescribePixelFormat c.dc 0 0 s.world).1.1) ∧
    (findAlternativeOpenGLPixelFormats.numTypes api c s).2.world =
      (if (api.isExtensionSupported "WGL_ARB_pixel_format" s.world
            && api.wglGetProcAddress "wglGetPixelFormatAttribivARB" s.world) = true then
        (api.wglGetPixelFormatAttribivARB c.dc 1 [WGL_NUMBER_PIXEL_FORMATS_ARB] s.world).2
      else (api.DescribePixelFormat c.dc 0 0 s.world).2) ∧
    (findAlternativeOpenGLPixelFormats api c pf0 [] s).1 =
      keepFirstOccurrences (validDescriptors
        (resolveInOrder api c (findAlternativeOpenGLPixelFormats.numTypes api c s).1.toNat 0 pf0
          (findAlternativeOpenGLPixelFormats.numTypes api c s).2).1) ∧
    (resolveInOrder api c (findAlternativeOpenGLPixelFormats.numTypes api c s).1.toNat 0 pf0
        (findAlternativeOpenGLPixelFormats.numTypes api c s).2).1.map (fun o => o.1) =
      (List.range (findAlternativeOpenGLPixelFormats.numTypes api c s).1.toNat).map
        (fun (k : Nat) => (k : Int) + 1) ∧
    ((findAlternativeOpenGLPixelFormats.numTypes api c s).1 ≤ 0 →
      ∀ results : List OpenGLPixelFormat,
        (findAlternativeOpenGLPixelFormats api c pf0 results s).1 = results) := by
  obtain ⟨hidx, calls, hcalls, hq⟩ := resolveInOrder_log api c
    (findAlternativeOpenGLPixelFormats.numTypes api c s).1.toNat 0 pf0
    (findAlternativeOpenGLPixelFormats.numTypes api c s).2
  obtain ⟨hlog, hn, hw⟩ := numTypes_exact api c s
  refine ⟨⟨calls, ?_, ?_, ?_⟩, hn, hw, ?_, ?_, ?_⟩
  · apply newCalls_of_log
    simp only [findAlternativeOpenGLPixelFormats, loop_eq_foldl]
    rw [hcalls, hlog]
    simp
  · rw [hq]
    simp
  · simp only [findAlternativeOpenGLPixelFormats, loop_eq_foldl]
    exact newCalls_of_log _ _ _ hcalls
  · simp only [findAlternativeOpenGLPixelFormats, loop_eq_foldl, foldl_listing]
    simp
  · simpa using hidx
  · intro h0 results
    have hz : (findAlternativeOpenGLPixelFormats.numTypes api c s).1.toNat = 0 :=
      Int.toNat_eq_zero.2 h0
    simp only [findAlternativeOpenGLPixelFormats, hz,
      findAlternativeOpenGLPixelFormats.loop]

/-- Claim C14. `getAllCommands` adds the six ids `open`, `save`, `saveAs`,
`showPluginListEditor`, `showAudioSettings` and `aboutBox`; `perform` returns
`true` exactly for these ids, and for every other id it returns `false` and
performs no action. -/
theorem perform_exactly_getAllCommands (ids : CommandIDs) (commandID : Int) (w : HostWorld D) :
    MainHostWindow.getAllCommands ids [] =
      [ids.open_, ids.save, ids.saveAs, ids.showPluginListEditor, ids.showAudioSettings,
        ids.aboutBox] ∧
    ((MainHostWindow.perform ids commandID w).1 = true ↔
      commandID ∈ MainHostWindow.getAllCommands ids []) ∧
    (commandID ∉ MainHostWindow.getAllCommands ids [] →
      MainHostWindow.perform ids commandID w = (false, w)) := by
  refine ⟨rfl, ?_, ?_⟩
  · simp only [MainHostWindow.perform, MainHostWindow.getAllCommands, List.nil_append,
      List.mem_cons, List.mem_singleton, List.not_mem_nil, or_false]
    split_ifs <;> simp_all
  · intro h
    simp only [MainHostWindow.getAllCommands, List.nil_append, List.mem_cons,
      List.mem_singleton, List.not_mem_nil, or_false, not_or] at h
    simp [MainHostWindow.perform, h]

/-- The loop of `addPluginsToMenu` appends one item per internal type, in array
order, with ids counting up from `i + 1`. -/
theorem addPluginsToMenu_loop_eq (name : D → String) :
    ∀ (types : List D) (i : Nat) (m : List MenuItem),
      MainHostWindow.addPluginsToMenu.loop name types i m =
        m ++ List.zipWith (fun (k : Nat) d => MenuItem.item ((k : Int) + 1) (name d) true false)
          (List.range' i types.length) types
  | [], _, m => by simp [MainHostWindow.addPluginsToMenu.loop]
  | d :: types, i, m => by
    rw [MainHostWindow.addPluginsToMenu.loop, addPluginsToMenu_loop_eq name types (i + 1)]
    simp [List.range'_succ]

/-- The item that the loop of `addPluginsToMenu` adds for the type at index `k`. -/
theorem addPluginsToMenu_loop_getElem (name : D → String) :
    ∀ (types : List D) (i : Nat) (m : List MenuItem) (k : Nat) (d : D),
      types[k]? = some d →
      (MainHostWindow.addPluginsToMenu.loop name types i m)[m.length + k]? =
        some (MenuItem.item (((i + k : Nat) : Int) + 1) (name d) true false)
  | [], _, _, _, _, h => by simp at h
  | t :: types, i, m, 0, d, h => by
    simp only [List.getElem?_cons_zero, Option.some.injEq] at h
    subst h
    rw [MainHostWindow.addPluginsToMenu.loop, addPluginsToMenu_loop_eq, List.append_assoc]
    simp only [Nat.add_zero]
    rw [List.getElem?_append_right (Nat.le_refl _), Nat.sub_self]
    simp
  | t :: types, i, m, k + 1, d, h => by
    simp only [List.getElem?_cons_succ] at h
    rw [MainHostWindow.addPluginsToMenu.loop]
    have ih := addPluginsToMenu_loop_getElem name types (i + 1)
      (m ++ [MenuItem.item ((i : Int) + 1) (name t) true false]) k d h
    have e1 : (m ++ [MenuItem.item ((i : Int) + 1) (name t) true false]).length + k
        = m.length + (k + 1) := by
      simp only [List.length_append, List.length_singleton]
      omega
    have e2 : i + 1 + k = i + (k + 1) := by omega
    rw [e1, e2] at ih
    exact ih

/-- Claim C18. For every index `i` of `internalTypes`, `addPluginsToMenu` adds the
item of `internalTypes[i]` with menu id `i + 1` (after the items the menu
already held), and `getChosenType (i + 1)` returns `internalTypes[i]`. The menu
gets exactly these items, a separator and the items of the known plugin list.
For an id outside `1 .. internalTypes.size()`, `getChosenType` returns what the
known plugin list resolves for that id, which is no internal type when the
known plugin list holds none. -/
theorem menu_ids_round_trip (name : D → String) (h : MainHostWindow D) (m : List MenuItem) :
    (∀ (i : Nat) (d : D), h.internalTypes[i]? = some d →
      (MainHostWindow.addPluginsToMenu name h m)[m.length + i]? =
        some (MenuItem.item ((i : Int) + 1) (name d) true false) ∧
      MainHostWindow.getChosenType h ((i : Int) + 1) = some d) ∧
    MainHostWindow.addPluginsToMenu name h m =
      m ++ List.zipWith (fun (k : Nat) d => MenuItem.item ((k : Int) + 1) (name d) true false)
          (List.range h.internalTypes.length) h.internalTypes
        ++ [MenuItem.separator] ++ h.knownPluginList.addToMenu h.pluginSortMethod ∧
    (∀ menuID : Int, ¬ (1 ≤ menuID ∧ menuID ≤ (h.internalTypes.length : Int)) →
      MainHostWindow.getChosenType h menuID =
        h.knownPluginList.getType (h.knownPluginList.getIndexChosenByMenu menuID)) ∧
    ((∀ (index : Int) (d : D), h.knownPluginList.getType index = some d →
        d ∉ h.internalTypes) →
      ∀ (menuID : Int) (d : D), ¬ (1 ≤ menuID ∧ menuID ≤ (h.internalTypes.length : Int)) →
        MainHostWindow.getChosenType h menuID = some d → d ∉ h.internalTypes) := by
  have hout : ∀ menuID : Int, ¬ (1 ≤ menuID ∧ menuID ≤ (h.internalTypes.length : Int)) →
      MainHostWindow.getChosenType h menuID =
        h.knownPluginList.getType (h.knownPluginList.getIndexChosenByMenu menuID) := by
    intro menuID hid
    have hc : ¬ (menuID ≥ 1 ∧ menuID < 1 + (h.internalTypes.length : Int)) := by
      intro hh
      exact hid ⟨hh.1, by omega⟩
    simp only [MainHostWindow.getChosenType, hc, if_false]
  refine ⟨?_, ?_, hout, ?_⟩
  · intro i d hd
    have hlt : i < h.internalTypes.length := by
      by_contra hge
      rw [List.getElem?_eq_none (by omega)] at hd
      exact absurd hd (by simp)
    constructor
    · have hloop := addPluginsToMenu_loop_getElem name h.internalTypes 0 m i d hd
      have hlen : m.length + i <
          (MainHostWindow.addPluginsToMenu.loop name h.internalTypes 0 m).length := by
        rw [addPluginsToMenu_loop_eq]
        simp
        omega
      simp only [MainHostWindow.addPluginsToMenu, List.append_assoc]
      rw [List.getElem?_append_left hlen, hloop]
      simp
    · have hc : ((i : Int) + 1 ≥ 1 ∧ (i : Int) + 1 < 1 + (h.internalTypes.length : Int)) := by
        constructor <;> omega
      simp only [MainHostWindow.getChosenType, hc, and_self, if_true]
      rw [← hd]
      congr 1
      omega
  · simp only [MainHostWindow.addPluginsToMenu, addPluginsToMenu_loop_eq, List.range_eq_range']
  · intro hdisj menuID d hid hget
    rw [hout menuID hid] at hget
    exact hdisj _ d hget


/-- Claim C19. For `k` in `0..3`, `menuItemSelected (200 + k)` sets
`pluginSortMethod` to the `k`-th of `defaultOrder`, `sortAlphabetically`,
`sortByCategory`, `sortByManufacturer`, writes that value to the setting
`pluginSortMethod` and does nothing else; the sub-menu `Plugin menu type` of
`getMenuForIndex (2)` then has the items `200 .. 203`, of which exactly
`200 + k` is ticked. For the ids `204 .. 209` the window is unchanged and the
only action is writing the unchanged method to the setting: no plugin is
created. -/
theorem sort_order_round_trip (ids : CommandIDs) (name : D → String)
    (recentFilesMenu : List MenuItem) (h : MainHostWindow D) (w : HostWorld D) :
    (∀ (k : Nat) (method : SortMethod),
      [SortMethod.defaultOrder, SortMethod.sortAlphabetically, SortMethod.sortByCategory,
        SortMethod.sortByManufacturer][k]? = some method →
      (MainHostWindow.menuItemSelected h (200 + (k : Int)) w).1.pluginSortMethod = method ∧
      (MainHostWindow.menuItemSelected h (200 + (k : Int)) w).2 =
        w.act (HostAction.setValue "pluginSortMethod" method) ∧
      ∃ items : List MenuItem,
        subMenuNamed "Plugin menu type"
          (MainHostWindow.getMenuForIndex ids name recentFilesMenu
            (MainHostWindow.menuItemSelected h (200 + (k : Int)) w).1 2) = some items ∧
        itemIds items = [200, 201, 202, 203] ∧
        tickedIds items = [200 + (k : Int)]) ∧
    (∀ menuItemID : Int, 204 ≤ menuItemID ∧ menuItemID ≤ 209 →
      (MainHostWindow.menuItemSelected h menuItemID w).1 = h ∧
      (MainHostWindow.menuItemSelected h menuItemID w).2 =
        w.act (HostAction.setValue "pluginSortMethod" h.pluginSortMethod)) := by
  constructor
  · intro k method hk
    rcases k with _ | _ | _ | _ | k
    · simp only [List.getElem?_cons_zero, Option.some.injEq] at hk
      subst hk
      refine ⟨rfl, rfl, _, rfl, rfl, rfl⟩
    · simp only [List.getElem?_cons_succ, List.getElem?_cons_zero, Option.some.injEq] at hk
      subst hk
      refine ⟨rfl, rfl, _, rfl, rfl, rfl⟩
    · simp only [List.getElem?_cons_succ, List.getElem?_cons_zero, Option.some.injEq] at hk
      subst hk
      refine ⟨rfl, rfl, _, rfl, rfl, rfl⟩
    · simp only [List.getElem?_cons_succ, List.getElem?_cons_zero, Option.some.injEq] at hk
      subst hk
      refine ⟨rfl, rfl, _, rfl, rfl, rfl⟩
    · simp at hk
  · rintro menuItemID ⟨hlo, hhi⟩
    have h1 : ¬ menuItemID = 250 := by omega
    have h2 : ¬ (menuItemID ≥ 100 ∧ menuItemID < 200) := by omega
    have h3 : menuItemID ≥ 200 ∧ menuItemID < 210 := by omega
    have h4 : ¬ menuItemID = 200 := by omega
    have h5 : ¬ menuItemID = 201 := by omega
    have h6 : ¬ menuItemID = 202 := by omega
    have h7 : ¬ menuItemID = 203 := by omega
    simp only [MainHostWindow.menuItemSelected, h1, h2, h3, h4, h5, h6, h7, if_false, if_true,
      and_self]

/-- Claim C11, as amended, at a concrete input: the simulated extended driver. -/
theorem setPixelFormat_success_trace_witness :
    simContext.nativeWindow ≠ 0 ∧
    (setPixelFormat (simApi simExtendedDriver) simRequest simContext simReady).1 = true ∧
    (setPixelFormat (simApi simExtendedDriver) simRequest simContext
      simReady).2.1.renderContext ≠ 0 :=
  ⟨by decide, rfl,
    (setPixelFormat_success_trace (simApi simExtendedDriver) simRequest simContext simReady
      (by decide) rfl).1⟩

/-- Claim C12 at a concrete input: the destructor of the current context of the
simulated world. -/
theorem destructor_releases_in_reverse_order_witness :
    simContext.nativeWindow ≠ 0 ∧
    isActive (simApi simExtendedDriver) simContext simReady = true ∧
    ∃ hwnd : HWND,
      newCalls simReady (WindowedGLContext.destruct (simApi simExtendedDriver) simContext
          simReady) =
        (if isActive (simApi simExtendedDriver) simContext simReady = true then
            [NativeCall.wglMakeCurrent 0 0
              ((simApi simExtendedDriver).wglMakeCurrent 0 0 simReady.world).1]
          else [])
        ++ (if simContext.renderContext = 0 then []
            else [NativeCall.wglDeleteContext simContext.renderContext])
        ++ [NativeCall.ReleaseDC hwnd simContext.dc,
            NativeCall.deletePeer simContext.nativeWindow] :=
  ⟨by decide, rfl,
    (destructor_releases_in_reverse_order (simApi simExtendedDriver) simContext simReady
      (by decide)).2⟩

/-- The destructor on the simulated world: the four calls, in order. -/
theorem destructor_example :
    newCalls simReady (WindowedGLContext.destruct (simApi simExtendedDriver) simContext
        simReady) =
      [NativeCall.wglMakeCurrent 0 0 true, NativeCall.wglDeleteContext 3,
        NativeCall.ReleaseDC 1 2, NativeCall.deletePeer 1] := by
  rfl

/-- The menu handling on a concrete window: ids `1 .. 3` are the built-in
types, id `1001` is resolved by the known plugin list, and choosing id `201`
ticks the alphabetical order only. -/
theorem mainHostWindow_example :
    MainHostWindow.getChosenType simHostWindow 2 = some "Audio Output" ∧
    MainHostWindow.getChosenType simHostWindow 1001 = some "Delay" ∧
    MainHostWindow.getChosenType simHostWindow 4 = none ∧
    itemIds (MainHostWindow.addPluginsToMenu (fun d => d) simHostWindow [])
      = [1, 2, 3, 1000, 1001] ∧
    (MainHostWindow.menuItemSelected simHostWindow 201 simHostWorld).1.pluginSortMethod
      = SortMethod.sortAlphabetically ∧
    (subMenuNamed "Plugin menu type"
      (MainHostWindow.getMenuForIndex ⟨1, 2, 3, 4, 5, 6, 7⟩ (fun d => d) []
        (MainHostWindow.menuItemSelected simHostWindow 201 simHostWorld).1 2)).map tickedIds
      = some [201] := by
  refine ⟨rfl, rfl, rfl, rfl, rfl, rfl⟩

end Juce
